import Mathlib

/-!
Shallow embedding of the quality-control core of the repository:
`src/services/validation_engine.py` (ValidationEngine) and
`src/services/error_recovery_system.py` (ErrorRecoverySystem).

Python values flowing through the validation engine are modelled by the
inductive `PyVal` (ints, strings, booleans, None, lists, string-keyed dicts).
Python operations that can raise are modelled in `Except String`, the error
carrying the exception message; code wrapped in `try/except` in the source
becomes a total Lean function by matching on the `Except`.  Scores are
rationals (`Rat`), modelling Python float arithmetic exactly on the
dyadic/decimal values the engine manipulates.

The auto-fixer mutates shared sub-structures through a shallow `dict.copy()`,
so it is embedded against an explicit heap (`Heap`, `HVal`, `HObj`) with
Python reference semantics.
-/

/-- A Python value as consumed by the validation engine: int, str, bool,
None, list, or a string-keyed dict (insertion-ordered association list). -/
inductive PyVal where
  | int (n : Int)
  | str (s : String)
  | bool (b : Bool)
  | none
  | list (xs : List PyVal)
  | dict (kvs : List (String × PyVal))

/-- Python type name of a value, used in exception messages. -/
def pyTypeName : PyVal → String
  | .int _ => "int"
  | .str _ => "str"
  | .bool _ => "bool"
  | .none => "NoneType"
  | .list _ => "list"
  | .dict _ => "dict"

/-- Python truthiness: `bool(v)`. -/
def pyTruthy : PyVal → Bool
  | .int n => n != 0
  | .str s => s ≠ ""
  | .bool b => b
  | .none => false
  | .list xs => ¬ xs.isEmpty
  | .dict kvs => ¬ kvs.isEmpty

/-- Python `a or b`: `a` if truthy, else `b`. -/
def pyOr (a b : PyVal) : PyVal := if pyTruthy a then a else b

/-- Python `d.get(k, default)`: raises AttributeError on non-dicts. -/
def pyGet (v : PyVal) (k : String) (dflt : PyVal) : Except String PyVal :=
  match v with
  | .dict kvs => .ok ((kvs.lookup k).getD dflt)
  | other => .error ("'" ++ pyTypeName other ++ "' object has no attribute 'get'")

/-- Python `d.get(k)` (default `None`). -/
def pyGet1 (v : PyVal) (k : String) : Except String PyVal := pyGet v k .none

/-- Python `len(v)`: defined for str, list and dict, raises TypeError otherwise. -/
def pyLen (v : PyVal) : Except String Nat :=
  match v with
  | .str s => .ok s.length
  | .list xs => .ok xs.length
  | .dict kvs => .ok kvs.length
  | other => .error ("object of type '" ++ pyTypeName other ++ "' has no len()")

/-- Python iteration `for x in v`: list elements, string characters, dict keys. -/
def pyIter (v : PyVal) : Except String (List PyVal) :=
  match v with
  | .list xs => .ok xs
  | .str s => .ok (s.toList.map (fun c => PyVal.str (String.mk [c])))
  | .dict kvs => .ok (kvs.map (fun kv => PyVal.str kv.1))
  | other => .error ("'" ++ pyTypeName other ++ "' object is not iterable")

/-- Whether the character list `pat` occurs as a contiguous sublist of `s`. -/
def charsContain (pat : List Char) : List Char → Bool
  | [] => pat.isEmpty
  | c :: rest => pat.isPrefixOf (c :: rest) || charsContain pat rest

/-- Python substring test `pat in s` for strings. -/
def strContains (s pat : String) : Bool := charsContain pat.toList s.toList

/-- Python `k in v` for a string needle `k`: dict key containment, list
membership (string equality; a str equals no non-str value), substring test
for strings; TypeError otherwise. -/
def pyContainsStr (v : PyVal) (k : String) : Except String Bool :=
  match v with
  | .dict kvs => .ok ((kvs.lookup k).isSome)
  | .list xs => .ok (xs.any (fun x => match x with | .str s => s == k | _ => false))
  | .str s => .ok (strContains s k)
  | other =>
    .error ("argument of type '" ++ pyTypeName other ++ "' is not iterable")

/-- Numeric coercion used by comparisons like `argumentos_totais < 10`:
int and bool compare as numbers, anything else raises TypeError. -/
def pyAsNum (v : PyVal) : Except String Int :=
  match v with
  | .int n => .ok n
  | .bool b => .ok (if b then 1 else 0)
  | other =>
    .error ("'<' not supported between instances of '" ++ pyTypeName other ++ "' and 'int'")

/-- Python `count > 0` used over `gatilhos_cialdini.values()`. -/
def pyGtZero (v : PyVal) : Except String Bool :=
  match v with
  | .int n => .ok (0 < n)
  | .bool b => .ok b
  | other =>
    .error ("'>' not supported between instances of '" ++ pyTypeName other ++ "' and 'int'")

/-- Repr of an integer, as Python prints it. -/
def intRepr (n : Int) : String := toString n

mutual

/-- Python `repr` of a value (strings single-quoted, as inside containers). -/
def pyRepr : PyVal → String
  | .int n => intRepr n
  | .str s => "'" ++ s ++ "'"
  | .bool b => if b then "True" else "False"
  | .none => "None"
  | .list xs => "[" ++ String.intercalate ", " (pyReprList xs) ++ "]"
  | .dict kvs => "\x7b" ++ String.intercalate ", " (pyReprKVs kvs) ++ "\x7d"

/-- Reprs of the elements of a list value. -/
def pyReprList : List PyVal → List String
  | [] => []
  | x :: xs => pyRepr x :: pyReprList xs

/-- Reprs of the key/value pairs of a dict value. -/
def pyReprKVs : List (String × PyVal) → List String
  | [] => []
  | (k, v) :: kvs => ("'" ++ k ++ "': " ++ pyRepr v) :: pyReprKVs kvs

end

/-- Python `str(v)`: the bare string for strings, `repr` otherwise. -/
def pyStr (v : PyVal) : String :=
  match v with
  | .str s => s
  | other => pyRepr other

/-- Strip leading and trailing whitespace from a character list. -/
def trimChars (cs : List Char) : List Char :=
  ((cs.dropWhile Char.isWhitespace).reverse.dropWhile Char.isWhitespace).reverse

/-- Python `int(string)`: optional sign and decimal digits after stripping
whitespace; `Option.none` models ValueError. -/
def parseIntPy (s : String) : Option Int :=
  let cs := trimChars s.toList
  let signDigits : Int × List Char :=
    match cs with
    | '-' :: r => (-1, r)
    | '+' :: r => (1, r)
    | r => (1, r)
  if signDigits.2 ≠ [] ∧ signDigits.2.all Char.isDigit then
    some (signDigits.1 * (signDigits.2.foldl (fun a c => a * 10 + (c.toNat - 48)) 0 : Nat))
  else
    Option.none

/-- Python `int(v)` for the emotional-intensity parse: ints unchanged, bools
as 0/1, strings parsed, everything else a TypeError (`Option.none`). -/
def pyToInt (v : PyVal) : Option Int :=
  match v with
  | .int n => some n
  | .bool b => some (if b then 1 else 0)
  | .str s => parseIntPy s
  | _ => Option.none

/-- Python `s.lower()` (character-wise lowering). -/
def strLower (s : String) : String := String.mk (s.toList.map Char.toLower)

/-- Python repr of a list of strings, as interpolated by f-strings
(e.g. `['tempo', 'dinheiro']`). -/
def strListRepr (xs : List String) : String :=
  "[" ++ String.intercalate ", " (xs.map (fun s => "'" ++ s ++ "'")) ++ "]"

/-- The per-component result dict built by every validator:
`{'valid': ..., 'score': ..., 'critical_issues': ..., 'warnings': ..., 'metrics': ...}`. -/
structure ComponentValidation where
  valid : Bool
  score : Rat
  critical_issues : List String
  warnings : List String
  metrics : List (String × PyVal)

/-- The initial validation dict every validator starts from. -/
def initValidation : ComponentValidation :=
  { valid := false, score := 0, critical_issues := [], warnings := [], metrics := [] }

/-- The `except Exception as e` clause shared by all validators: appends the
formatted error message to the critical issues accumulated so far. -/
def catchValidation (msgPrefix : String) (v : ComponentValidation) (e : String) : ComponentValidation :=
  { v with critical_issues := v.critical_issues ++ [msgPrefix ++ e] }

/-- One iteration of the driver-quality loop in `_validate_mental_drivers`:
returns the updated `(valid_drivers, generic_drivers)` counters, raising if
`len(definicao)` is applied to an unsized truthy value. -/
def driverStep (acc : Nat × Nat) (driver : PyVal) : Except String (Nat × Nat) :=
  match driver with
  | .dict kvs =>
    let nome := (kvs.lookup "nome").getD (.str "")
    let definicao := (kvs.lookup "definicao_visceral").getD (.str "")
    match (if pyTruthy nome && pyTruthy definicao then
             (pyLen definicao).map (fun L => decide (50 < L))
           else (.ok false : Except String Bool)) with
    | .error e => .error e
    | .ok validInc =>
      let genericInc := ["em desenvolvimento", "customizado para", "driver mental"].any
          (fun g => strContains (strLower (pyStr driver)) g)
      .ok (acc.1 + (if validInc then 1 else 0), acc.2 + (if genericInc then 1 else 0))
  | _ => .ok acc

/-- `ValidationEngine._validate_mental_drivers`. -/
def _validate_mental_drivers (drivers_data : PyVal) (full_analysis : PyVal) : ComponentValidation :=
  let v0 := initValidation
  let oops := catchValidation "Erro na validação de drivers: "
  match pyGet drivers_data "drivers_customizados" (.list []) with
  | .error e => oops v0 e
  | .ok drivers_list =>
    if ¬ pyTruthy drivers_list then
      { v0 with critical_issues := v0.critical_issues ++ ["Nenhum driver mental encontrado"] }
    else
      match pyLen drivers_list with
      | .error e => oops v0 e
      | .ok driver_count =>
        let v1 := { v0 with metrics := v0.metrics ++ [("driver_count", PyVal.int driver_count)] }
        let v2 :=
          if driver_count < 5 then
            { v1 with critical_issues := v1.critical_issues ++
                ["Drivers insuficientes: " ++ toString driver_count ++ " < 5 mínimo"] }
          else if driver_count < 19 then
            { v1 with warnings := v1.warnings ++
                ["Drivers abaixo do ideal: " ++ toString driver_count ++ " < 19 recomendado"] }
          else v1
        match pyIter drivers_list with
        | .error e => oops v2 e
        | .ok items =>
          match items.foldlM driverStep (0, 0) with
          | .error e => oops v2 e
          | .ok counts =>
            let valid_drivers := counts.1
            let generic_drivers := counts.2
            let v3 := { v2 with metrics := v2.metrics ++
                [("valid_drivers", PyVal.int valid_drivers), ("generic_drivers", PyVal.int generic_drivers)] }
            let quantity_score : Rat := min ((driver_count : Rat) / 19 * 100) 100
            let quality_score : Rat :=
              (if 0 < driver_count then (valid_drivers : Rat) / (driver_count : Rat) else 0) * 100
            let score := (quantity_score + quality_score) / 2
            { v3 with score := score,
                      valid := decide (60 ≤ score) && v3.critical_issues.isEmpty }

/-- One iteration of the PROVI-quality loop in `_validate_visual_proofs`:
updates the `(valid_provis, complete_provis)` counters (never raises). -/
def proviStep (acc : Nat × Nat) (provi : PyVal) : Nat × Nat :=
  match provi with
  | .dict kvs =>
    let nome := (kvs.lookup "nome").getD (.str "")
    let experimento := pyOr ((kvs.lookup "experimento").getD (.str ""))
                            ((kvs.lookup "experimento_escolhido").getD (.str ""))
    if pyTruthy nome && pyTruthy experimento then
      let complete := pyTruthy ((kvs.lookup "roteiro_completo").getD PyVal.none) &&
                      pyTruthy ((kvs.lookup "materiais").getD PyVal.none)
      (acc.1 + 1, acc.2 + (if complete then 1 else 0))
    else acc
  | _ => acc

/-- `ValidationEngine._validate_visual_proofs`. -/
def _validate_visual_proofs (proofs_data : PyVal) (full_analysis : PyVal) : ComponentValidation :=
  let v0 := initValidation
  let oops := catchValidation "Erro na validação de PROVIs: "
  let provis_list : PyVal :=
    match proofs_data with
    | .list _ => proofs_data
    | .dict kvs =>
      pyOr (pyOr ((kvs.lookup "arsenal_provis_completo").getD (.list []))
                 ((kvs.lookup "provas_visuais").getD (.list [])))
           ((kvs.lookup "visual_proofs").getD (.list []))
    | _ => .list []
  match pyLen provis_list with
  | .error e => oops v0 e
  | .ok provis_count =>
    let v1 := { v0 with metrics := v0.metrics ++ [("provis_count", PyVal.int provis_count)] }
    if ¬ pyTruthy provis_list then
      { v1 with critical_issues := v1.critical_issues ++ ["Nenhuma PROVI encontrada"] }
    else
      match pyIter provis_list with
      | .error e => oops v1 e
      | .ok items =>
        let counts := items.foldl proviStep (0, 0)
        let valid_provis := counts.1
        let complete_provis := counts.2
        let v2 := { v1 with metrics := v1.metrics ++
            [("valid_provis", PyVal.int valid_provis), ("complete_provis", PyVal.int complete_provis)] }
        let quantity_score : Rat :=
          if 5 ≤ provis_count then 100
          else if 3 ≤ provis_count then 80
          else (provis_count : Rat) * 20
        let quality_score : Rat :=
          if pyTruthy provis_list then (valid_provis : Rat) / (provis_count : Rat) * 100 else 0
        let completeness_score : Rat :=
          if pyTruthy provis_list then (complete_provis : Rat) / (provis_count : Rat) * 100 else 0
        let score := (quantity_score + quality_score + completeness_score) / 3
        { v2 with score := score,
                  valid := decide (70 ≤ score) && v2.critical_issues.isEmpty }

/-- The list comprehension `[req for req in required_universals if req not in universais]`. -/
def missingUniversals (universais : PyVal) : Except String (List String) :=
  ["tempo", "dinheiro", "confianca"].foldlM
    (fun acc req => do
      let c ← pyContainsStr universais req
      pure (if c then acc else acc ++ [req]))
    []

/-- `ValidationEngine._validate_anti_objection`. -/
def _validate_anti_objection (anti_obj_data : PyVal) (full_analysis : PyVal) : ComponentValidation :=
  let v0 := initValidation
  let oops := catchValidation "Erro na validação anti-objeção: "
  match pyGet anti_obj_data "objecoes_universais" (.dict []) with
  | .error e => oops v0 e
  | .ok universais =>
    match pyLen universais with
    | .error e => oops v0 e
    | .ok universais_count =>
      let v1 := { v0 with metrics := v0.metrics ++ [("universais_count", PyVal.int universais_count)] }
      match missingUniversals universais with
      | .error e => oops v1 e
      | .ok missing =>
        let v2 :=
          if ¬ missing.isEmpty then
            { v1 with critical_issues := v1.critical_issues ++
                ["Objeções universais ausentes: " ++ strListRepr missing] }
          else v1
        match pyGet anti_obj_data "scripts_personalizados" (.dict []) with
        | .error e => oops v2 e
        | .ok scripts =>
          match pyLen scripts with
          | .error e => oops v2 e
          | .ok scripts_count =>
            let v3 := { v2 with metrics := v2.metrics ++ [("scripts_count", PyVal.int scripts_count)] }
            let v4 :=
              if ¬ pyTruthy scripts then
                { v3 with critical_issues := v3.critical_issues ++ ["Scripts personalizados ausentes"] }
              else v3
            match pyGet anti_obj_data "arsenal_emergencia" (.list []) with
            | .error e => oops v4 e
            | .ok arsenal =>
              match pyLen arsenal with
              | .error e => oops v4 e
              | .ok arsenal_count =>
                let v5 := { v4 with metrics := v4.metrics ++ [("arsenal_count", PyVal.int arsenal_count)] }
                let v6 :=
                  if arsenal_count < 5 then
                    { v5 with warnings := v5.warnings ++
                        ["Arsenal de emergência limitado: " ++ toString arsenal_count ++ " < 5"] }
                  else v5
                let coverage_score : Rat :=
                  if universais_count ≤ 3 then (universais_count : Rat) / 3 * 100 else 100
                let scripts_score : Rat := min ((scripts_count : Rat) / 3 * 100) 100
                let arsenal_score : Rat := min ((arsenal_count : Rat) / 8 * 100) 100
                let score := (coverage_score + scripts_score + arsenal_score) / 3
                { v6 with score := score,
                          valid := decide (70 ≤ score) && v6.critical_issues.isEmpty }

/-- `ValidationEngine._validate_avatar`. -/
def _validate_avatar (avatar_data : PyVal) (full_analysis : PyVal) : ComponentValidation :=
  let v0 := initValidation
  let oops := catchValidation "Erro na validação do avatar: "
  match pyGet avatar_data "dores_viscerais" (.list []) with
  | .error e => oops v0 e
  | .ok dores1 =>
    match (if pyTruthy dores1 then (.ok dores1 : Except String PyVal) else pyGet avatar_data "feridas_abertas_inconfessaveis" (.list [])) with
    | .error e => oops v0 e
    | .ok dores =>
      match pyLen dores with
      | .error e => oops v0 e
      | .ok dores_count =>
        let v1 := { v0 with metrics := v0.metrics ++ [("dores_count", PyVal.int dores_count)] }
        let v2 :=
          if dores_count < 5 then
            { v1 with critical_issues := v1.critical_issues ++
                ["Dores insuficientes: " ++ toString dores_count ++ " < 5"] }
          else v1
        match pyGet avatar_data "desejos_secretos" (.list []) with
        | .error e => oops v2 e
        | .ok desejos1 =>
          match (if pyTruthy desejos1 then (.ok desejos1 : Except String PyVal) else pyGet avatar_data "sonhos_proibidos_ardentes" (.list [])) with
          | .error e => oops v2 e
          | .ok desejos =>
            match pyLen desejos with
            | .error e => oops v2 e
            | .ok desejos_count =>
              let v3 := { v2 with metrics := v2.metrics ++ [("desejos_count", PyVal.int desejos_count)] }
              let v4 :=
                if desejos_count < 5 then
                  { v3 with critical_issues := v3.critical_issues ++
                      ["Desejos insuficientes: " ++ toString desejos_count ++ " < 5"] }
                else v3
              match pyGet avatar_data "perfil_demografico" (.dict []) with
              | .error e => oops v4 e
              | .ok demografico =>
                match pyLen demografico with
                | .error e => oops v4 e
                | .ok demografico_fields =>
                  let v5 := { v4 with metrics := v4.metrics ++ [("demografico_fields", PyVal.int demografico_fields)] }
                  let v6 :=
                    if demografico_fields < 3 then
                      { v5 with warnings := v5.warnings ++ ["Perfil demográfico limitado"] }
                    else v5
                  match pyGet avatar_data "perfil_psicografico" (.dict []) with
                  | .error e => oops v6 e
                  | .ok psicografico =>
                    match pyLen psicografico with
                    | .error e => oops v6 e
                    | .ok psicografico_fields =>
                      let v7 := { v6 with metrics := v6.metrics ++ [("psicografico_fields", PyVal.int psicografico_fields)] }
                      let v8 :=
                        if psicografico_fields < 3 then
                          { v7 with warnings := v7.warnings ++ ["Perfil psicográfico limitado"] }
                        else v7
                      let dores_score : Rat := min ((dores_count : Rat) / 15 * 100) 100
                      let desejos_score : Rat := min ((desejos_count : Rat) / 15 * 100) 100
                      let demografico_score : Rat := min ((demografico_fields : Rat) / 7 * 100) 100
                      let psicografico_score : Rat := min ((psicografico_fields : Rat) / 8 * 100) 100
                      let score := (dores_score + desejos_score + demografico_score + psicografico_score) / 4
                      { v8 with score := score,
                                valid := decide (70 ≤ score) && v8.critical_issues.isEmpty }

/-- `sum(1 for count in cialdini.values() if count > 0)`: raises AttributeError
on non-dicts and TypeError on non-numeric counter values. -/
def cialdiniCount (cialdini : PyVal) : Except String Nat :=
  match cialdini with
  | .dict kvs =>
    kvs.foldlM (fun acc kv => do
      let b ← pyGtZero kv.2
      pure (if b then acc + 1 else acc)) 0
  | other => .error ("'" ++ pyTypeName other ++ "' object has no attribute 'values'")

/-- The per-emotion parse in `_validate_forensic_metrics`: values of the form
`"N/10"` take the integer before the slash, otherwise `int(valor)`; `none`
models the swallowed per-item exception (`except: continue`). -/
def parseEmotion (valor : PyVal) : Option Int :=
  let sv := pyStr valor
  if strContains sv "/" then
    parseIntPy (String.mk (sv.toList.takeWhile (fun c => c ≠ '/')))
  else
    pyToInt valor

/-- `ValidationEngine._validate_forensic_metrics`. -/
def _validate_forensic_metrics (metrics_data : PyVal) (full_analysis : PyVal) : ComponentValidation :=
  let v0 := initValidation
  let oops := catchValidation "Erro na validação de métricas: "
  match pyGet metrics_data "densidade_persuasiva" (.dict []) with
  | .error e => oops v0 e
  | .ok densidade =>
    if ¬ pyTruthy densidade then
      { v0 with critical_issues := v0.critical_issues ++ ["Densidade persuasiva ausente"] }
    else
      match pyGet densidade "argumentos_totais" (.int 0) with
      | .error e => oops v0 e
      | .ok argumentos_totais =>
        let v1 := { v0 with metrics := v0.metrics ++ [("argumentos_totais", argumentos_totais)] }
        match pyAsNum argumentos_totais with
        | .error e => oops v1 e
        | .ok argumentosN =>
          let v2 :=
            if argumentosN < 10 then
              { v1 with critical_issues := v1.critical_issues ++
                  ["Argumentos insuficientes: " ++ pyStr argumentos_totais ++ " < 10"] }
            else v1
          match pyGet densidade "gatilhos_cialdini" (.dict []) with
          | .error e => oops v2 e
          | .ok cialdini =>
            match cialdiniCount cialdini with
            | .error e => oops v2 e
            | .ok cialdini_ativados =>
              let v3 := { v2 with metrics := v2.metrics ++ [("cialdini_ativados", PyVal.int cialdini_ativados)] }
              let v4 :=
                if cialdini_ativados < 3 then
                  { v3 with critical_issues := v3.critical_issues ++
                      ["Gatilhos de Cialdini insuficientes: " ++ toString cialdini_ativados ++ " < 3"] }
                else v3
              match pyGet metrics_data "intensidade_emocional" (.dict []) with
              | .error e => oops v4 e
              | .ok intensidade =>
                match (if pyTruthy intensidade then
                         match intensidade with
                         | .dict kvs =>
                           .ok (some (kvs.countP (fun kv =>
                             match parseEmotion kv.2 with
                             | some n => decide (7 ≤ n)
                             | Option.none => false)))
                         | other =>
                           .error ("'" ++ pyTypeName other ++ "' object has no attribute 'items'")
                       else (.ok Option.none : Except String (Option Nat))) with
                | .error e => oops v4 e
                | .ok emotionsRun =>
                  let v5 :=
                    match emotionsRun with
                    | some emocoes_validas =>
                      let v5a := { v4 with metrics := v4.metrics ++ [("emocoes_intensas", PyVal.int emocoes_validas)] }
                      if emocoes_validas < 2 then
                        { v5a with warnings := v5a.warnings ++
                            ["Intensidade emocional baixa: " ++ toString emocoes_validas ++ " emoções >= 7/10"] }
                      else v5a
                    | Option.none => v4
                  -- `validation['metrics'].get('emocoes_intensas', 0)`; the stored
                  -- value is an int by construction
                  let emocoesBack : Int :=
                    match v5.metrics.lookup "emocoes_intensas" with
                    | some (.int n) => n
                    | _ => 0
                  let argumentos_score : Rat := min ((argumentosN : Rat) / 20 * 100) 100
                  let cialdini_score : Rat := min ((cialdini_ativados : Rat) / 6 * 100) 100
                  let intensidade_score : Rat := min ((emocoesBack : Rat) / 4 * 100) 100
                  let score := (argumentos_score + cialdini_score + intensidade_score) / 3
                  { v5 with score := score,
                            valid := decide (60 ≤ score) && v5.critical_issues.isEmpty }

/-- `ValidationEngine._get_component_weight`. -/
def _get_component_weight (component_name : String) : Rat :=
  ([("drivers_mentais", (0.25 : Rat)),
    ("provas_visuais", 0.20),
    ("sistema_anti_objecao", 0.20),
    ("avatar_ultra_detalhado", 0.20),
    ("metricas_forenses", 0.15)].lookup component_name).getD 0.1

/-- `ValidationEngine._check_scientific_compliance`.  Raises (propagating out
of `validate_complete_analysis`) when a present `pesquisa_web_massiva` or
`metadata` entry is a truthy non-dict. -/
def _check_scientific_compliance (analysis_data : PyVal) : Except String Bool := do
  let pesquisa_data ← pyGet analysis_data "pesquisa_web_massiva" (.dict [])
  if ¬ pyTruthy pesquisa_data then
    pure false
  else do
    let search_results ← pyGet1 pesquisa_data "search_results"
    if ¬ pyTruthy search_results then
      pure false
    else do
      let has_metrics := pyTruthy (← pyGet1 analysis_data "metricas_forenses_detalhadas")
      let metadata ← pyGet analysis_data "metadata" (.dict [])
      let has_validation := pyTruthy (← pyGet1 metadata "quality_score")
      pure (has_metrics && has_validation)

/-- Aggregate result of `validate_complete_analysis`
(the `validated_at` timestamp is the `now` argument). -/
structure ValidationResult where
  overall_valid : Bool
  quality_score : Rat
  component_validations : List (String × ComponentValidation)
  critical_issues : List String
  warnings : List String
  recommendations : List String
  scientific_compliance : Bool
  validated_at : String

/-- `ValidationEngine._generate_recommendations`. -/
def _generate_recommendations (quality_score : Rat) (critical_issues : List String)
    (scientific_compliance : Bool)
    (component_validations : List (String × ComponentValidation)) : List String :=
  (if quality_score < 80 then ["Melhore a qualidade geral da análise configurando mais APIs"] else []) ++
  (if ¬ critical_issues.isEmpty then ["Resolva os issues críticos identificados antes de usar a análise"] else []) ++
  (if ¬ scientific_compliance then ["Adicione mais fontes científicas e dados quantitativos"] else []) ++
  (component_validations.filterMap (fun cv =>
    if cv.2.score < 70 then some ("Melhore a qualidade do componente " ++ cv.1) else Option.none))

/-- A component validator as dispatched by the aggregator; the `Except` layer
models a validator call that raises (caught by the aggregator's `try`). -/
abbrev RuleFun := PyVal → PyVal → Except String ComponentValidation

/-- Accumulator state of the aggregator's component loop. -/
structure AggState where
  component_validations : List (String × ComponentValidation)
  critical_issues : List String
  warnings : List String
  total_score : Rat
  max_score : Rat

/-- One iteration of the aggregator's `for component_name, validator in
self.validation_rules.items()` loop, including its per-component `try/except`. -/
def aggStep (analysis_data : PyVal) (st : AggState) (rule : String × RuleFun) : AggState :=
  match (do
      let component_data ← pyGet analysis_data rule.1 (.dict [])
      rule.2 component_data analysis_data) with
  | .error e =>
    { st with critical_issues := st.critical_issues ++
        ["Falha na validação de " ++ rule.1 ++ ": " ++ e] }
  | .ok cv =>
    let weight := _get_component_weight rule.1
    { component_validations := st.component_validations ++ [(rule.1, cv)]
      critical_issues :=
        if ¬ cv.critical_issues.isEmpty then st.critical_issues ++ cv.critical_issues
        else st.critical_issues
      warnings :=
        if ¬ cv.warnings.isEmpty then st.warnings ++ cv.warnings else st.warnings
      total_score := st.total_score + cv.score * weight
      max_score := st.max_score + 100 * weight }

/-- `ValidationEngine.validate_complete_analysis`, parameterized by the rule
table (the source's `self.validation_rules`); the `Except` result propagates
the uncaught exceptions of `_check_scientific_compliance`. -/
def validate_with_rules (rules : List (String × RuleFun)) (analysis_data : PyVal)
    (now : String) : Except String ValidationResult := do
  let st := rules.foldl (aggStep analysis_data)
    { component_validations := [], critical_issues := [], warnings := [],
      total_score := 0, max_score := 0 }
  let quality_score : Rat :=
    if 0 < st.max_score then st.total_score / st.max_score * 100 else 0
  let overall_valid := decide ((80 : Rat) ≤ quality_score) && st.critical_issues.isEmpty
  let scientific_compliance ← _check_scientific_compliance analysis_data
  pure
    { overall_valid := overall_valid
      quality_score := quality_score
      component_validations := st.component_validations
      critical_issues := st.critical_issues
      warnings := st.warnings
      recommendations := _generate_recommendations quality_score st.critical_issues
        scientific_compliance st.component_validations
      scientific_compliance := scientific_compliance
      validated_at := now }

/-- The source's `self.validation_rules` table (fixed iteration order).  The
embedded validators are total, so each rule is lifted with `.ok`. -/
def validation_rules : List (String × RuleFun) :=
  [("drivers_mentais", fun d f => .ok (_validate_mental_drivers d f)),
   ("provas_visuais", fun d f => .ok (_validate_visual_proofs d f)),
   ("sistema_anti_objecao", fun d f => .ok (_validate_anti_objection d f)),
   ("avatar_ultra_detalhado", fun d f => .ok (_validate_avatar d f)),
   ("metricas_forenses", fun d f => .ok (_validate_forensic_metrics d f))]

/-- `ValidationEngine.validate_complete_analysis`. -/
def validate_complete_analysis (analysis_data : PyVal) (now : String) :
    Except String ValidationResult :=
  validate_with_rules validation_rules analysis_data now

/-- Optional component name as passed to the recovery system (`None` default). -/
def componentPy : Option String → PyVal
  | some c => .str c
  | Option.none => .none

/-- `ErrorRecoverySystem._identify_recovery_strategy`: ordered first-match
rules over the error message, error type and failing component name. -/
def _identify_recovery_strategy (error_str : String) (error_type : String)
    (component_name : Option String) : Option String :=
  if strContains error_str "'AIManager' object has no attribute" then
    some "ai_manager_fallback"
  else if strContains error_str "object has no attribute" then
    some "missing_method"
  else if strContains error_str "list indices must be integers" then
    some "invalid_data_structure"
  else if strContains error_str "takes" && strContains error_str "positional arguments" then
    some "invalid_data_structure"
  else if (match component_name with
           | some c => c ≠ "" &&
               (["driver", "visual", "anti_objection"].any (fun comp => strContains c comp))
           | Option.none => false) then
    some "component_failure"
  else if strContains (strLower error_str) "validation" || strContains (strLower error_str) "invalid" then
    some "validation_failure"
  else
    Option.none

/-- `ErrorRecoverySystem._generic_recovery` (pure dict construction). -/
def _generic_recovery (error_type error_str : String) (context : PyVal)
    (component_name : Option String) (now : String) : PyVal :=
  .dict
    [("recovery_successful", .bool true),
     ("method", .str "generic_recovery"),
     ("error_type", .str error_type),
     ("error_message", .str error_str),
     ("context_preserved", context),
     ("component_name", componentPy component_name),
     ("fallback_data", .dict
       [("status", .str "recovered_with_basic_data"),
        ("content", .str ("Dados básicos para " ++ (component_name.getD "componente"))),
        ("recommendation", .str "Verifique configuração e execute novamente")]),
     ("timestamp", .str now)]

/-- `ErrorRecoverySystem._emergency_recovery` (pure dict construction). -/
def _emergency_recovery (error_type error_str : String) (context : PyVal)
    (component_name : Option String) (now : String) : PyVal :=
  .dict
    [("recovery_successful", .bool false),
     ("method", .str "emergency_recovery"),
     ("error_type", .str error_type),
     ("error_message", .str error_str),
     ("context_preserved", .bool true),
     ("emergency_data", .dict
       [("status", .str "emergency_mode"),
        ("message", .str "Sistema em modo de emergência - dados preservados"),
        ("context", context),
        ("component", componentPy component_name),
        ("next_steps", .list
          [.str "Verifique logs de erro detalhados",
           .str "Configure APIs ausentes",
           .str "Execute análise novamente",
           .str "Contate suporte se problema persistir"])]),
     ("timestamp", .str now)]

/-- The body of `recover_from_error` inside its outer `try`.  `oSalvarErro`
and `oSalvarEtapa` model the external audit-sink calls (`salvar_erro`,
`salvar_etapa` from the absent `services.auto_save_manager` module) and
`oStrategy` models dispatching `self.recovery_strategies[strategy]`, whose
handlers depend on the absent `services.ai_manager` module; all three may
raise arbitrarily, which the outer `except` must absorb. -/
def recoverBody (error_type error_str : String) (context : PyVal)
    (component_name : Option String) (now : String)
    (oSalvarErro : Except String Unit)
    (oStrategy : String → Except String PyVal)
    (oSalvarEtapa : PyVal → Except String Unit) : Except String PyVal := do
  oSalvarErro
  match _identify_recovery_strategy error_str error_type component_name with
  | some recovery_strategy => do
    let recovery_result ← oStrategy recovery_strategy
    oSalvarEtapa recovery_result
    pure recovery_result
  | Option.none =>
    pure (_generic_recovery error_type error_str context component_name now)

/-- `ErrorRecoverySystem.recover_from_error`: the public entry point; any
exception from the body degrades to `_emergency_recovery`. -/
def recover_from_error (error_type error_str : String) (context : PyVal)
    (component_name : Option String) (now : String)
    (oSalvarErro : Except String Unit)
    (oStrategy : String → Except String PyVal)
    (oSalvarEtapa : PyVal → Except String Unit) : PyVal :=
  match recoverBody error_type error_str context component_name now
      oSalvarErro oStrategy oSalvarEtapa with
  | .ok r => r
  | .error _ => _emergency_recovery error_type error_str context component_name now

/-- A heap value of the auto-fixer's object graph: immediate scalars or a
reference to a mutable list/dict object. -/
inductive HVal where
  | int (n : Int)
  | float (q : Rat)
  | str (s : String)
  | bool (b : Bool)
  | none
  | ref (a : Nat)
deriving DecidableEq

/-- A mutable Python object: a list or a string-keyed dict. -/
inductive HObj where
  | list (xs : List HVal)
  | dict (kvs : List (String × HVal))
deriving DecidableEq

/-- The object heap: address → object, plus the next fresh address. -/
structure Heap where
  objs : List (Nat × HObj)
  next : Nat
deriving DecidableEq

/-- Look an address up in the heap. -/
def Heap.lookup (h : Heap) (a : Nat) : Option HObj := List.lookup a h.objs

/-- Overwrite the object stored at an (existing) address. -/
def Heap.store (h : Heap) (a : Nat) (o : HObj) : Heap :=
  { h with objs := h.objs.map (fun p => if p.1 = a then (a, o) else p) }

/-- Allocate a fresh object, returning a reference to it. -/
def Heap.alloc (h : Heap) (o : HObj) : HVal × Heap :=
  (.ref h.next, { objs := (h.next, o) :: h.objs, next := h.next + 1 })

/-- Python type name of a heap value (for exception messages). -/
def hTypeName (h : Heap) : HVal → String
  | .int _ => "int"
  | .float _ => "float"
  | .str _ => "str"
  | .bool _ => "bool"
  | .none => "NoneType"
  | .ref a => match h.lookup a with
    | some (.list _) => "list"
    | some (.dict _) => "dict"
    | Option.none => "object"

/-- The auto-fixer's effectful computations: state = heap, errors = exception
messages; `EStateM` keeps the heap mutated so far when an exception escapes. -/
abbrev AF := EStateM String Heap

/-- Allocate an object (e.g. a `{}` or `[]` literal, or an appended item). -/
def afAlloc (o : HObj) : AF HVal := do
  let h ← get
  let (v, h') := h.alloc o
  set h'
  pure v

/-- `v.copy()`: a shallow copy sharing all element/value references. -/
def afCopy (v : HVal) : AF HVal := do
  let h ← get
  match v with
  | .ref a =>
    match h.lookup a with
    | some (.dict kvs) => afAlloc (.dict kvs)
    | some (.list xs) => afAlloc (.list xs)
    | Option.none => throw "dangling reference"
  | other => throw ("'" ++ hTypeName h other ++ "' object has no attribute 'copy'")

/-- Python `k in v` on the heap for a string key `k`. -/
def afContains (v : HVal) (k : String) : AF Bool := do
  let h ← get
  match v with
  | .ref a =>
    match h.lookup a with
    | some (.dict kvs) => pure (kvs.lookup k).isSome
    | some (.list xs) =>
      pure (xs.any (fun x => match x with | .str s => s == k | _ => false))
    | Option.none => throw "dangling reference"
  | .str s => pure (strContains s k)
  | other => throw ("argument of type '" ++ hTypeName h other ++ "' is not iterable")

/-- `v[k]` for a string subscript. -/
def afGetItem (v : HVal) (k : String) : AF HVal := do
  let h ← get
  match v with
  | .ref a =>
    match h.lookup a with
    | some (.dict kvs) =>
      match kvs.lookup k with
      | some x => pure x
      | Option.none => throw ("KeyError: '" ++ k ++ "'")
    | some (.list _) => throw "list indices must be integers or slices, not str"
    | Option.none => throw "dangling reference"
  | other => throw ("'" ++ hTypeName h other ++ "' object is not subscriptable")

/-- Insert-or-replace on an association list, preserving insertion order. -/
def dictInsert (kvs : List (String × HVal)) (k : String) (x : HVal) : List (String × HVal) :=
  if (kvs.lookup k).isSome then kvs.map (fun p => if p.1 = k then (k, x) else p)
  else kvs ++ [(k, x)]

/-- `v[k] = x` for a string subscript. -/
def afSetItem (v : HVal) (k : String) (x : HVal) : AF Unit := do
  let h ← get
  match v with
  | .ref a =>
    match h.lookup a with
    | some (.dict kvs) => set (h.store a (.dict (dictInsert kvs k x)))
    | some (.list _) => throw "list indices must be integers or slices, not str"
    | Option.none => throw "dangling reference"
  | other => throw ("'" ++ hTypeName h other ++ "' object does not support item assignment")

/-- `isinstance(v, dict)` (total). -/
def afIsDict (v : HVal) : AF Bool := do
  let h ← get
  match v with
  | .ref a =>
    match h.lookup a with
    | some (.dict _) => pure true
    | _ => pure false
  | _ => pure false

/-- `v.get(k, dflt)` on the heap; the default is evaluated (allocated) by the
caller before the call, as in Python. -/
def afDictGet (v : HVal) (k : String) (dflt : HVal) : AF HVal := do
  let h ← get
  match v with
  | .ref a =>
    match h.lookup a with
    | some (.dict kvs) => pure ((kvs.lookup k).getD dflt)
    | some (.list _) => throw "'list' object has no attribute 'get'"
    | Option.none => throw "dangling reference"
  | other => throw ("'" ++ hTypeName h other ++ "' object has no attribute 'get'")

/-- `len(v)` on the heap. -/
def afLen (v : HVal) : AF Nat := do
  let h ← get
  match v with
  | .str s => pure s.length
  | .ref a =>
    match h.lookup a with
    | some (.list xs) => pure xs.length
    | some (.dict kvs) => pure kvs.length
    | Option.none => throw "dangling reference"
  | other => throw ("object of type '" ++ hTypeName h other ++ "' has no len()")

/-- `v.append(item)`: mutates the referenced list in place. -/
def afAppend (v : HVal) (item : HVal) : AF Unit := do
  let h ← get
  match v with
  | .ref a =>
    match h.lookup a with
    | some (.list xs) => set (h.store a (.list (xs ++ [item])))
    | some (.dict _) => throw "'dict' object has no attribute 'append'"
    | Option.none => throw "dangling reference"
  | other => throw ("'" ++ hTypeName h other ++ "' object has no attribute 'append'")

/-- `v.values()` for dicts. -/
def afValues (v : HVal) : AF (List HVal) := do
  let h ← get
  match v with
  | .ref a =>
    match h.lookup a with
    | some (.dict kvs) => pure (kvs.map (fun p => p.2))
    | _ => throw "'list' object has no attribute 'values'"
  | other => throw ("'" ++ hTypeName h other ++ "' object has no attribute 'values'")

/-- `v.update({...})` for dicts: insert-or-replace each pair in order. -/
def afUpdateDict (v : HVal) (kvs : List (String × HVal)) : AF Unit := do
  let h ← get
  match v with
  | .ref a =>
    match h.lookup a with
    | some (.dict old) => set (h.store a (.dict (kvs.foldl (fun acc kv => dictInsert acc kv.1 kv.2) old)))
    | _ => throw "'list' object has no attribute 'update'"
  | other => throw ("'" ++ hTypeName h other ++ "' object has no attribute 'update'")

/-- Python `count == 0` over caller-supplied counter values (total:
cross-type equality with 0 holds for `0`, `0.0` and `False` only). -/
def hvalEqZero : HVal → Bool
  | .int n => n == 0
  | .float q => q == 0
  | .bool b => b == false
  | _ => false

/-- The `while len(drivers_list) < 3` padding loop of Fix 1.  Each pass
appends exactly one freshly allocated filler dict, so at most 3 passes run;
the fuel bounds the recursion without changing the semantics. -/
def padDriversLoop : Nat → HVal → AF Unit
  | 0, _ => pure ()
  | fuel + 1, drivers_list => do
    let n ← afLen drivers_list
    if n < 3 then do
      let item ← afAlloc (.dict
        [("nome", .str ("Driver Básico " ++ toString (n + 1))),
         ("gatilho_central", .str "Gatilho psicológico"),
         ("definicao_visceral", .str "Definição básica"),
         ("auto_fixed", .bool true)])
      afAppend drivers_list item
      padDriversLoop fuel drivers_list
    else
      pure ()

/-- The `while len(provas_list) < 2` padding loop of Fix 2 (same shape). -/
def padProvasLoop : Nat → HVal → AF Unit
  | 0, _ => pure ()
  | fuel + 1, provas_list => do
    let n ← afLen provas_list
    if n < 2 then do
      let item ← afAlloc (.dict
        [("nome", .str ("PROVI " ++ toString (n + 1) ++ ": Prova Básica")),
         ("conceito_alvo", .str "Conceito fundamental"),
         ("experimento_escolhido", .str "Demonstração visual básica"),
         ("auto_fixed", .bool true)])
      afAppend provas_list item
      padProvasLoop fuel provas_list
    else
      pure ()

/-- Fix 1 of `auto_fix_common_errors`: pad `drivers_mentais_customizados.
drivers_customizados` up to 3 items (in-place appends on the shared list). -/
def autoFix1 (fixed_data fixes_applied : HVal) : AF Unit := do
  if (← afContains fixed_data "drivers_mentais_customizados") then
    let drivers ← afGetItem fixed_data "drivers_mentais_customizados"
    if (← afIsDict drivers) then
      if (← afContains drivers "drivers_customizados") then
        let drivers_list ← afGetItem drivers "drivers_customizados"
        let n ← afLen drivers_list
        if n < 3 then do
          padDriversLoop 3 drivers_list
          afAppend fixes_applied (.str "drivers_mentais_minimum")

/-- Fix 2: pad `provas_visuais_arsenal.arsenal_provis_completo` up to 2 items
and write the (possibly freshly defaulted) list back under the key. -/
def autoFix2 (fixed_data fixes_applied : HVal) : AF Unit := do
  if (← afContains fixed_data "provas_visuais_arsenal") then
    let provas ← afGetItem fixed_data "provas_visuais_arsenal"
    if (← afIsDict provas) then do
      let dflt ← afAlloc (.list [])
      let provas_list ← afDictGet provas "arsenal_provis_completo" dflt
      let n ← afLen provas_list
      if n < 2 then do
        padProvasLoop 2 provas_list
        afSetItem provas "arsenal_provis_completo" provas_list
        afAppend fixes_applied (.str "provas_visuais_minimum")

/-- Fix 3: when every Cialdini counter is zero (vacuously, also when the
`gatilhos_cialdini` mapping is a `.get` default), update the counters dict in
place with the fixed non-zero distribution.  No write-back occurs, so default
dicts stay detached from the record. -/
def autoFix3 (fixed_data fixes_applied : HVal) : AF Unit := do
  if (← afContains fixed_data "metricas_forenses_detalhadas") then
    let metricas ← afGetItem fixed_data "metricas_forenses_detalhadas"
    if (← afIsDict metricas) then do
      let dfltDens ← afAlloc (.dict [])
      let densidade ← afDictGet metricas "densidade_persuasiva" dfltDens
      let dfltCial ← afAlloc (.dict [])
      let cialdini ← afDictGet densidade "gatilhos_cialdini" dfltCial
      let vals ← afValues cialdini
      if vals.all hvalEqZero then do
        afUpdateDict cialdini
          [("reciprocidade", .int 2), ("autoridade", .int 3), ("prova_social", .int 4),
           ("escassez", .int 1), ("compromisso", .int 2), ("afinidade", .int 3)]
        afAppend fixes_applied (.str "cialdini_triggers_basic")

/-- Fix 4: synthesize a `metadata` entry when absent.  The metadata dict holds
a reference to the live `fixes_applied` list, as in the source. -/
def autoFix4 (fixed_data fixes_applied : HVal) (now : String) : AF Unit := do
  if ¬ (← afContains fixed_data "metadata") then do
    let md ← afAlloc (.dict
      [("auto_fixed", .bool true),
       ("fixes_applied", fixes_applied),
       ("fixed_at", .str now),
       ("quality_score", .float 75),
       ("validation_status", .str "auto_fixed")])
    afSetItem fixed_data "metadata" md
    afAppend fixes_applied (.str "metadata_added")

/-- The body of `auto_fix_common_errors` inside its `try`: the four fixes in
order, then `len(fixes_applied)` for the `original_issues` field. -/
def autoFixTry (fixed_data fixes_applied : HVal) (now : String) : AF Nat := do
  autoFix1 fixed_data fixes_applied
  autoFix2 fixed_data fixes_applied
  autoFix3 fixed_data fixes_applied
  autoFix4 fixed_data fixes_applied now
  afLen fixes_applied

/-- The result dict of `auto_fix_common_errors` plus the final heap.  Success
populates `fixes_applied`/`fixed_data`/`original_issues`; failure populates
`error`/`original_data`. -/
structure AutoFixResult where
  auto_fix_successful : Bool
  fixes_applied : Option HVal
  fixed_data : Option HVal
  original_issues : Option Nat
  error : Option String
  original_data : Option HVal
  recommendation : String
  heap : Heap
deriving DecidableEq

/-- `ErrorRecoverySystem.auto_fix_common_errors`.  The shallow
`analysis_data.copy()` and the `fixes_applied = []` initialization run before
the `try`, so a copy failure (non-dict argument) propagates as an uncaught
exception (`.error`); everything inside the `try` degrades to the
`auto_fix_successful: false` result carrying the original reference. -/
def auto_fix_common_errors (h : Heap) (analysis_data : HVal) (now : String) :
    Except (String × Heap) AutoFixResult :=
  match afCopy analysis_data h with
  | .error e h' => .error (e, h')
  | .ok fixed_data h1 =>
    match afAlloc (.list []) h1 with
    | .error e h' => .error (e, h')
    | .ok fixes_applied h2 =>
      match autoFixTry fixed_data fixes_applied now h2 with
      | .ok original_issues h3 =>
        { auto_fix_successful := true
          fixes_applied := some fixes_applied
          fixed_data := some fixed_data
          original_issues := some original_issues
          error := Option.none
          original_data := Option.none
          recommendation := "Dados corrigidos automaticamente - qualidade básica garantida"
          heap := h3 : AutoFixResult }
        |> .ok
      | .error e h3 =>
        { auto_fix_successful := false
          fixes_applied := Option.none
          fixed_data := Option.none
          original_issues := Option.none
          error := some e
          original_data := some analysis_data
          recommendation := "Auto-fix falhou - use dados originais"
          heap := h3 : AutoFixResult }
        |> .ok

/-- Final heap of an auto-fix call (also defined on the uncaught-error case). -/
def afHeapOf (r : Except (String × Heap) AutoFixResult) : Heap :=
  match r with
  | .ok x => x.heap
  | .error e => e.2

/-- The contents of the `fixes_applied` list in the result's heap. -/
def afFixesOf (r : Except (String × Heap) AutoFixResult) : List HVal :=
  match r with
  | .ok x =>
    match x.fixes_applied with
    | some (.ref a) =>
      match x.heap.lookup a with
      | some (.list xs) => xs
      | _ => []
    | _ => []
  | .error _ => []

/-- The `argumentos_totais` count as `_validate_forensic_metrics` reads it
(0 whenever the extraction would raise or the early return fires). -/
def forensicArgumentos (metrics_data : PyVal) : Int :=
  match pyGet metrics_data "densidade_persuasiva" (.dict []) with
  | .error _ => 0
  | .ok densidade =>
    if ¬ pyTruthy densidade then 0
    else
      match pyGet densidade "argumentos_totais" (.int 0) with
      | .error _ => 0
      | .ok argumentos_totais =>
        match pyAsNum argumentos_totais with
        | .error _ => 0
        | .ok n => n

/-! ## Theorems about the embedded program -/

theorem mental_drivers_on_empty : _validate_mental_drivers (.dict []) (.dict []) =
    { valid := false, score := 0, critical_issues := ["Nenhum driver mental encontrado"],
      warnings := [], metrics := [] } := by
  simp [_validate_mental_drivers, initValidation, catchValidation, pyGet, pyTruthy, List.lookup]

theorem visual_proofs_on_empty : _validate_visual_proofs (.dict []) (.dict []) =
    { valid := false, score := 0, critical_issues := ["Nenhuma PROVI encontrada"],
      warnings := [], metrics := [("provis_count", PyVal.int 0)] } := by
  simp [_validate_visual_proofs, initValidation, catchValidation, pyGet, pyTruthy, pyLen,
        pyOr, List.lookup]

theorem anti_objection_on_empty : _validate_anti_objection (.dict []) (.dict []) =
    { valid := false, score := 0,
      critical_issues := ["Objeções universais ausentes: ['tempo', 'dinheiro', 'confianca']",
        "Scripts personalizados ausentes"],
      warnings := ["Arsenal de emergência limitado: 0 < 5"],
      metrics := [("universais_count", PyVal.int 0), ("scripts_count", PyVal.int 0),
        ("arsenal_count", PyVal.int 0)] } := by
  simp [_validate_anti_objection, initValidation, catchValidation, pyGet, pyTruthy, pyLen,
        missingUniversals, pyContainsStr, strListRepr, List.lookup, List.foldlM, pure,
        Except.pure, Except.bind, bind, String.intercalate, String.intercalate.go]
  rfl

theorem avatar_on_empty : _validate_avatar (.dict []) (.dict []) =
    { valid := false, score := 0,
      critical_issues := ["Dores insuficientes: 0 < 5", "Desejos insuficientes: 0 < 5"],
      warnings := ["Perfil demográfico limitado", "Perfil psicográfico limitado"],
      metrics := [("dores_count", PyVal.int 0), ("desejos_count", PyVal.int 0),
        ("demografico_fields", PyVal.int 0), ("psicografico_fields", PyVal.int 0)] } := by
  simp [_validate_avatar, initValidation, catchValidation, pyGet, pyTruthy, pyLen, pyOr, List.lookup]
  exact ⟨rfl, rfl⟩

theorem forensic_on_empty : _validate_forensic_metrics (.dict []) (.dict []) =
    { valid := false, score := 0, critical_issues := ["Densidade persuasiva ausente"],
      warnings := [], metrics := [] } := by
  simp [_validate_forensic_metrics, initValidation, catchValidation, pyGet, pyTruthy, List.lookup]

/-- The result of running the aggregator on the empty record (C9's subject). -/
def emptyRunResult : ValidationResult :=
  ((validate_complete_analysis (.dict []) "T").toOption).getD
    { overall_valid := false, quality_score := 0, component_validations := [],
      critical_issues := [], warnings := [], recommendations := [],
      scientific_compliance := false, validated_at := "" }

/-- C9: `validate_complete_analysis` applied to the empty record `{}` yields
`overall_valid = false`, a non-empty `critical_issues` list, and a
`quality_score` of (exactly) 0. -/
theorem c9_empty_record_invalid :
    validate_complete_analysis (.dict []) "T" = .ok emptyRunResult ∧
    emptyRunResult.overall_valid = false ∧
    emptyRunResult.critical_issues ≠ [] ∧
    emptyRunResult.quality_score = 0 := by
  refine ⟨rfl, ?_, ?_, ?_⟩ <;>
  · simp only [emptyRunResult, validate_complete_analysis, validate_with_rules, validation_rules,
      _check_scientific_compliance, pyGet, pyGet1, pyTruthy,
      List.foldl, aggStep, mental_drivers_on_empty, visual_proofs_on_empty,
      anti_objection_on_empty, avatar_on_empty, forensic_on_empty,
      List.lookup, bind, Except.bind, pure, Except.pure, Except.toOption, Option.getD,
      _get_component_weight]
    norm_num [List.isEmpty]
    try simp

/-- The result of running the aggregator on the empty record, for C1's witness. -/
def c1RunResult : ValidationResult :=
  ((validate_complete_analysis (.dict []) "W").toOption).getD
    { overall_valid := false, quality_score := 0, component_validations := [],
      critical_issues := [], warnings := [], recommendations := [],
      scientific_compliance := false, validated_at := "" }

/-- C1: whenever `validate_complete_analysis` returns a result, its
`overall_valid` flag holds iff the computed `quality_score` is at least 80.0
and the collected `critical_issues` list across all component validations is
empty. -/
theorem c1_overall_valid_iff (analysis_data : PyVal) (now : String) (r : ValidationResult)
    (h : validate_complete_analysis analysis_data now = .ok r) :
    r.overall_valid = true ↔ (80 ≤ r.quality_score ∧ r.critical_issues = []) := by
  unfold validate_complete_analysis validate_with_rules at h
  simp only [bind, Except.bind, pure, Except.pure] at h
  cases hc : _check_scientific_compliance analysis_data with
  | error e => rw [hc] at h; cases h
  | ok c =>
    rw [hc] at h
    injection h with h'
    subst h'
    simp [Bool.and_eq_true, decide_eq_true_eq, List.isEmpty_iff]

/-- Witness for C1 at the concrete record `{}`. -/
theorem c1_witness :
    validate_complete_analysis (.dict []) "W" = .ok c1RunResult ∧
    (c1RunResult.overall_valid = true ↔
      (80 ≤ c1RunResult.quality_score ∧ c1RunResult.critical_issues = [])) :=
  ⟨rfl, c1_overall_valid_iff (.dict []) "W" c1RunResult rfl⟩

/-- C7: every error whose message contains the AI-manager "no attribute"
signature is classified as `ai_manager_fallback`, never `missing_method`,
although the message also matches the generic "object has no attribute"
pattern — the ordered rules give the specific pattern precedence. -/
theorem c7_ai_manager_precedence (error_str error_type : String)
    (component_name : Option String)
    (h : strContains error_str "'AIManager' object has no attribute" = true) :
    _identify_recovery_strategy error_str error_type component_name = some "ai_manager_fallback" ∧
    _identify_recovery_strategy error_str error_type component_name ≠ some "missing_method" := by
  unfold _identify_recovery_strategy
  rw [h]
  simp

/-- Witness for C7 at the message from the spec's example. -/
theorem c7_witness :
    strContains "'AIManager' object has no attribute 'foo'" "'AIManager' object has no attribute" = true ∧
    strContains "'AIManager' object has no attribute 'foo'" "object has no attribute" = true ∧
    _identify_recovery_strategy "'AIManager' object has no attribute 'foo'" "AttributeError" Option.none =
      some "ai_manager_fallback" :=
  ⟨by decide, by decide,
    (c7_ai_manager_precedence "'AIManager' object has no attribute 'foo'" "AttributeError"
      Option.none (by decide)).1⟩

theorem aggStep_preserves_issue (analysis_data : PyVal) (msg : String)
    (rules : List (String × RuleFun)) :
    ∀ st : AggState, msg ∈ st.critical_issues →
      msg ∈ (rules.foldl (aggStep analysis_data) st).critical_issues := by
  induction rules with
  | nil => intro st hm; simpa using hm
  | cons rule rest ih =>
    intro st hm
    rw [List.foldl_cons]
    apply ih
    unfold aggStep
    cases (do
        let component_data ← pyGet analysis_data rule.1 (.dict [])
        rule.2 component_data analysis_data : Except String ComponentValidation) with
    | error e => simpa using Or.inl hm
    | ok cv =>
      simp only
      split
      · exact List.mem_append_left _ hm
      · exact hm

theorem aggStep_records_failure (analysis_data : PyVal) (name : String) (rule : RuleFun)
    (e : String) (rules : List (String × RuleFun)) :
    ∀ st : AggState, (name, rule) ∈ rules →
      (do
        let component_data ← pyGet analysis_data name (.dict [])
        rule component_data analysis_data : Except String ComponentValidation) = .error e →
      ("Falha na validação de " ++ name ++ ": " ++ e) ∈
        (rules.foldl (aggStep analysis_data) st).critical_issues := by
  induction rules with
  | nil => intro st hm _; cases hm
  | cons hd rest ih =>
    intro st hm herr
    rw [List.foldl_cons]
    rcases List.mem_cons.mp hm with hEq | hTail
    · subst hEq
      apply aggStep_preserves_issue
      unfold aggStep
      rw [herr]
      simp
    · exact ih _ hTail herr

/-- C6: the recovery entry point is total — any exception raised while
auditing, classifying or executing a strategy (the oracles may fail
arbitrarily) is absorbed and degrades to `_emergency_recovery`, whose
`recovery_successful` field is `False`; and the validation aggregator
converts any exception raised by a component rule into the per-component
"Falha na validação" critical issue instead of letting it escape. -/
theorem c6_no_raise_past_entry :
    (∀ (error_type error_str : String) (context : PyVal) (component_name : Option String)
       (now : String) (oSalvarErro : Except String Unit)
       (oStrategy : String → Except String PyVal)
       (oSalvarEtapa : PyVal → Except String Unit) (e : String),
       recoverBody error_type error_str context component_name now
           oSalvarErro oStrategy oSalvarEtapa = .error e →
       recover_from_error error_type error_str context component_name now
           oSalvarErro oStrategy oSalvarEtapa =
         _emergency_recovery error_type error_str context component_name now ∧
       pyGet1 (recover_from_error error_type error_str context component_name now
           oSalvarErro oStrategy oSalvarEtapa) "recovery_successful" = .ok (.bool false)) ∧
    (∀ (rules : List (String × RuleFun)) (analysis_data : PyVal) (now : String)
       (name : String) (rule : RuleFun) (e : String) (r : ValidationResult),
       (name, rule) ∈ rules →
       (do
         let component_data ← pyGet analysis_data name (.dict [])
         rule component_data analysis_data : Except String ComponentValidation) = .error e →
       validate_with_rules rules analysis_data now = .ok r →
       ("Falha na validação de " ++ name ++ ": " ++ e) ∈ r.critical_issues) := by
  constructor
  · intro error_type error_str context component_name now oSE oS oSEt e herr
    unfold recover_from_error
    rw [herr]
    exact ⟨rfl, by simp [pyGet1, pyGet, _emergency_recovery, List.lookup]⟩
  · intro rules analysis_data now name rule e r hmem herr hok
    have hcrit := aggStep_records_failure analysis_data name rule e rules
      { component_validations := [], critical_issues := [], warnings := [],
        total_score := 0, max_score := 0 } hmem herr
    unfold validate_with_rules at hok
    simp only [bind, Except.bind, pure, Except.pure] at hok
    cases hc : _check_scientific_compliance analysis_data with
    | error e' => rw [hc] at hok; cases hok
    | ok c =>
      rw [hc] at hok
      injection hok with hok'
      subst hok'
      exact hcrit

/-- The aggregator result used in C6's witness: one rule that always raises. -/
def c6RunResult : ValidationResult :=
  ((validate_with_rules [("alpha", fun _ _ => .error "boom")] (.dict []) "T").toOption).getD
    { overall_valid := false, quality_score := 0, component_validations := [],
      critical_issues := [], warnings := [], recommendations := [],
      scientific_compliance := false, validated_at := "" }

/-- Witness for C6: a failing audit sink degrades recovery to the emergency
response, and a raising validator rule surfaces as a critical issue. -/
theorem c6_witness :
    recover_from_error "RuntimeError" "boom" (.dict []) Option.none "T"
        (.error "audit sink down") (fun _ => .error "x") (fun _ => .error "y") =
      _emergency_recovery "RuntimeError" "boom" (.dict []) Option.none "T" ∧
    ("Falha na validação de alpha: boom" ∈ c6RunResult.critical_issues) := by
  constructor
  · exact (c6_no_raise_past_entry.1 "RuntimeError" "boom" (.dict []) Option.none "T"
      (.error "audit sink down") (fun _ => .error "x") (fun _ => .error "y")
      "audit sink down" rfl).1
  · exact c6_no_raise_past_entry.2 [("alpha", fun _ _ => .error "boom")] (.dict []) "T"
      "alpha" (fun _ _ => .error "boom") "boom" c6RunResult (by simp) rfl rfl

/-- The anti-objection score as C5's spec sentence describes it (refinement
reference, following the claim's words): the coverage sub-score counts only
the three required universals present in `objecoes_universais`. -/
def antiObjectionScoreSpec (anti_obj_data : PyVal) : Rat :=
  let universais : PyVal :=
    match anti_obj_data with
    | .dict kvs => (kvs.lookup "objecoes_universais").getD (.dict [])
    | _ => .dict []
  let count_present :=
    (["tempo", "dinheiro", "confianca"].filter (fun req =>
      match universais with
      | .dict kvs => (kvs.lookup req).isSome
      | _ => false)).length
  let scripts_count :=
    match anti_obj_data with
    | .dict kvs =>
      match (kvs.lookup "scripts_personalizados").getD (.dict []) with
      | .dict s => s.length
      | .list s => s.length
      | _ => 0
    | _ => 0
  let arsenal_count :=
    match anti_obj_data with
    | .dict kvs =>
      match (kvs.lookup "arsenal_emergencia").getD (.list []) with
      | .dict a => a.length
      | .list a => a.length
      | _ => 0
    | _ => 0
  let coverage_score := min ((count_present : Rat) / 3 * 100) 100
  let scripts_score := min ((scripts_count : Rat) / 3 * 100) 100
  let arsenal_score := min ((arsenal_count : Rat) / 8 * 100) 100
  (coverage_score + scripts_score + arsenal_score) / 3

/-- C5's counterexample input: `objecoes_universais` holds one key that is
none of the three required universals. -/
def c5Input : PyVal :=
  .dict [("objecoes_universais", .dict [("outra", .int 1)])]

set_option maxHeartbeats 1000000 in
/-- C5 counterexample: the code's coverage sub-score counts all keys of
`objecoes_universais`, so its score differs from the claim's formula, which
counts only the required universals that are present. -/
theorem c5_counterexample :
    (_validate_anti_objection c5Input (.dict [])).score ≠ antiObjectionScoreSpec c5Input := by
  have h1 : (_validate_anti_objection c5Input (.dict [])).score = 100 / 9 := by
    simp [c5Input, _validate_anti_objection, initValidation,
          catchValidation, pyGet, pyTruthy, pyLen, missingUniversals, pyContainsStr,
          List.lookup, List.foldlM, bind, Except.bind, pure, Except.pure]
    norm_num
  have h2 : antiObjectionScoreSpec c5Input =
      (min (((0 : Nat) : Rat) / 3 * 100) 100 + min (((0 : Nat) : Rat) / 3 * 100) 100 +
        min (((0 : Nat) : Rat) / 8 * 100) 100) / 3 := rfl
  rw [h1, h2]
  norm_num [min_def]

/-- The anti-objection sub-record shape used for C5's amended claim. -/
def antiInput (u s : List (String × PyVal)) (arr : List PyVal) : PyVal :=
  .dict [("objecoes_universais", .dict u),
         ("scripts_personalizados", .dict s),
         ("arsenal_emergencia", .list arr)]

set_option maxHeartbeats 1000000 in
/-- C5 (amended): the anti-objection score is the unweighted average of three
sub-scores, where the coverage sub-score is `(len(objecoes_universais)/3)*100`
when that mapping has at most 3 keys and 100 otherwise — counting all of its
keys, not only the three required universals — and the scripts and arsenal
sub-scores are `min(count/3*100, 100)` and `min(count/8*100, 100)`. -/
theorem c5_amended_average (u s : List (String × PyVal)) (arr : List PyVal) (f : PyVal) :
    (_validate_anti_objection (antiInput u s arr) f).score =
      ((if u.length ≤ 3 then (u.length : Rat) / 3 * 100 else 100) +
        min ((s.length : Rat) / 3 * 100) 100 +
        min ((arr.length : Rat) / 8 * 100) 100) / 3 := by
  simp [antiInput, _validate_anti_objection, initValidation, catchValidation,
    pyGet, pyTruthy, pyLen, missingUniversals, pyContainsStr, List.lookup,
    List.foldlM, bind, Except.bind, pure, Except.pure]

theorem driverStep_fst_le (acc : Nat × Nat) (x : PyVal) (res : Nat × Nat)
    (h : driverStep acc x = .ok res) : res.1 ≤ acc.1 + 1 := by
  unfold driverStep at h
  split at h
  · dsimp only at h
    split at h
    · cases h
    · injection h with h'
      subst h'
      split <;> simp
  · injection h with h'
    subst h'
    exact Nat.le_succ _

theorem driversFold_fst_le (xs : List PyVal) :
    ∀ (acc res : Nat × Nat), xs.foldlM driverStep acc = .ok res → res.1 ≤ acc.1 + xs.length := by
  induction xs with
  | nil =>
    intro acc res h
    simp [List.foldlM, pure, Except.pure] at h
    simp [← h]
  | cons x rest ih =>
    intro acc res h
    simp only [List.foldlM, bind, Except.bind] at h
    cases hs : driverStep acc x with
    | error e => rw [hs] at h; cases h
    | ok a =>
      rw [hs] at h
      have h1 := driverStep_fst_le acc x a hs
      have h2 := ih a res h
      simp [List.length_cons]
      omega

theorem pyIter_length_eq (v : PyVal) (n : Nat) (xs : List PyVal)
    (hl : pyLen v = .ok n) (hi : pyIter v = .ok xs) : xs.length = n := by
  cases v with
  | str s =>
    simp [pyLen, pyIter] at hl hi
    rw [← hi, ← hl, List.length_map]
    rfl
  | list ys =>
    simp [pyLen, pyIter] at hl hi
    rw [← hi, ← hl]
  | dict kvs =>
    simp [pyLen, pyIter] at hl hi
    rw [← hi, ← hl]
    simp
  | int m => simp [pyLen] at hl
  | bool b => simp [pyLen] at hl
  | none => simp [pyLen] at hl

theorem mental_score_cases (d f : PyVal) :
    (_validate_mental_drivers d f).score = 0 ∨
    ∃ (n valid : Nat), valid ≤ n ∧
      (_validate_mental_drivers d f).score =
        (min ((n : Rat) / 19 * 100) 100 +
          (if 0 < n then (valid : Rat) / (n : Rat) else 0) * 100) / 2 := by
  unfold _validate_mental_drivers
  dsimp only
  split
  · left; simp [catchValidation, initValidation, apply_ite ComponentValidation.score]
  · split
    · left; simp [catchValidation, initValidation, apply_ite ComponentValidation.score]
    · split
      · left; simp [catchValidation, initValidation, apply_ite ComponentValidation.score]
      · split
        · left; simp [catchValidation, initValidation, apply_ite ComponentValidation.score]
        · split
          · left; simp [catchValidation, initValidation, apply_ite ComponentValidation.score]
          · rename_i x2 drivers_list hget htruthy x1 n hlen x0 items hiter xf counts hfold
            right
            refine ⟨n, counts.1, ?_, rfl⟩
            have h1 := driversFold_fst_le items (0, 0) counts hfold
            have h2 := pyIter_length_eq drivers_list n items hlen hiter
            omega

theorem proviStep_le (acc : Nat × Nat) (x : PyVal) :
    (proviStep acc x).1 ≤ acc.1 + 1 ∧ (proviStep acc x).2 ≤ acc.2 + 1 := by
  unfold proviStep
  split
  · dsimp only
    split
    · constructor
      · simp
      · split <;> simp
    · simp
  · simp

theorem proviFold_le (xs : List PyVal) :
    ∀ acc : Nat × Nat, (xs.foldl proviStep acc).1 ≤ acc.1 + xs.length ∧
      (xs.foldl proviStep acc).2 ≤ acc.2 + xs.length := by
  induction xs with
  | nil => intro acc; simp
  | cons x rest ih =>
    intro acc
    rw [List.foldl_cons]
    have h1 := proviStep_le acc x
    have h2 := ih (proviStep acc x)
    constructor
    · calc (rest.foldl proviStep (proviStep acc x)).1 ≤ (proviStep acc x).1 + rest.length := h2.1
        _ ≤ acc.1 + 1 + rest.length := by omega
        _ = acc.1 + (x :: rest).length := by simp [List.length_cons]; omega
    · calc (rest.foldl proviStep (proviStep acc x)).2 ≤ (proviStep acc x).2 + rest.length := h2.2
        _ ≤ acc.2 + 1 + rest.length := by omega
        _ = acc.2 + (x :: rest).length := by simp [List.length_cons]; omega

theorem provas_score_cases (d f : PyVal) :
    (_validate_visual_proofs d f).score = 0 ∨
    ∃ (n valid complete : Nat), valid ≤ n ∧ complete ≤ n ∧
      (_validate_visual_proofs d f).score =
        ((if 5 ≤ n then (100:Rat) else if 3 ≤ n then 80 else (n : Rat) * 20) +
          (valid : Rat) / (n : Rat) * 100 + (complete : Rat) / (n : Rat) * 100) / 3 := by
  unfold _validate_visual_proofs
  dsimp only
  split
  · left; rfl
  · rename_i xl n hlen
    split
    · left; rfl
    · rename_i hnt
      have ht := not_not.mp hnt
      split
      · left; rfl
      · rename_i xi items hiter
        right
        have hlen' := pyIter_length_eq _ n items hlen hiter
        have hfold := proviFold_le items (0, 0)
        refine ⟨n, (items.foldl proviStep (0, 0)).1, (items.foldl proviStep (0, 0)).2,
          by omega, by omega, ?_⟩
        simp only [ht]
        simp

theorem anti_score_cases (d f : PyVal) :
    (_validate_anti_objection d f).score = 0 ∨
    ∃ (nU nS nA : Nat),
      (_validate_anti_objection d f).score =
        ((if nU ≤ 3 then (nU : Rat) / 3 * 100 else 100) +
          min ((nS : Rat) / 3 * 100) 100 + min ((nA : Rat) / 8 * 100) 100) / 3 := by
  unfold _validate_anti_objection
  dsimp only
  split
  · left; rfl
  · split
    · left; rfl
    · split
      · left; simp [catchValidation, initValidation, apply_ite ComponentValidation.score]
      · split
        · left; simp [catchValidation, initValidation, apply_ite ComponentValidation.score]
        · split
          · left; simp [catchValidation, initValidation, apply_ite ComponentValidation.score]
          · split
            · left; simp [catchValidation, initValidation, apply_ite ComponentValidation.score]
            · split
              · left; simp [catchValidation, initValidation, apply_ite ComponentValidation.score]
              · right
                exact ⟨_, _, _, rfl⟩

theorem avatar_score_cases (d f : PyVal) :
    (_validate_avatar d f).score = 0 ∨
    ∃ (nd ns ndem npsi : Nat),
      (_validate_avatar d f).score =
        (min ((nd : Rat) / 15 * 100) 100 + min ((ns : Rat) / 15 * 100) 100 +
          min ((ndem : Rat) / 7 * 100) 100 + min ((npsi : Rat) / 8 * 100) 100) / 4 := by
  unfold _validate_avatar
  dsimp only
  split
  · left; rfl
  · split
    · left; rfl
    · split
      · left; rfl
      · split
        · left; simp [catchValidation, initValidation, apply_ite ComponentValidation.score]
        · split
          · left; simp [catchValidation, initValidation, apply_ite ComponentValidation.score]
          · split
            · left; simp [catchValidation, initValidation, apply_ite ComponentValidation.score]
            · split
              · left; simp [catchValidation, initValidation, apply_ite ComponentValidation.score]
              · split
                · left; simp [catchValidation, initValidation, apply_ite ComponentValidation.score]
                · split
                  · left; simp [catchValidation, initValidation, apply_ite ComponentValidation.score]
                  · split
                    · left; simp [catchValidation, initValidation, apply_ite ComponentValidation.score]
                    · right
                      exact ⟨_, _, _, _, rfl⟩

theorem forensic_score_cases (d f : PyVal) :
    (_validate_forensic_metrics d f).score = 0 ∨
    ∃ (a m : Int) (c : Nat), 0 ≤ m ∧ forensicArgumentos d = a ∧
      (_validate_forensic_metrics d f).score =
        (min ((a : Rat) / 20 * 100) 100 + min ((c : Rat) / 6 * 100) 100 +
          min ((m : Rat) / 4 * 100) 100) / 3 := by
  unfold _validate_forensic_metrics
  dsimp only
  split
  · left; rfl
  · rename_i xg densidade hget
    split
    · left; rfl
    · rename_i hnt
      have ht := not_not.mp hnt
      split
      · left; rfl
      · rename_i xa argumentos_totais harg
        split
        · left; rfl
        · rename_i xn argumentosN hnum
          have hfa : forensicArgumentos d = argumentosN := by
            unfold forensicArgumentos
            rw [hget]
            simp only [ht, not_true_eq_false, Bool.false_eq_true, if_false]
            simp only [harg, hnum]
          split
          · left; simp [catchValidation, initValidation, apply_ite ComponentValidation.score]
          · rename_i xc cialdini hcial
            split
            · left; simp [catchValidation, initValidation, apply_ite ComponentValidation.score]
            · rename_i xcc cialdiniN hcnt
              split
              · left; simp [catchValidation, initValidation, apply_ite ComponentValidation.score]
              · rename_i xi intensidade hint
                split
                · left; simp [catchValidation, initValidation, apply_ite ComponentValidation.score]
                · rename_i xe emotionsRun hrun
                  right
                  cases emotionsRun with
                  | none =>
                    refine ⟨argumentosN, 0, cialdiniN, le_refl 0, hfa, ?_⟩
                    simp [apply_ite ComponentValidation.metrics,
                          apply_ite ComponentValidation.score, List.lookup]
                  | some count =>
                    refine ⟨argumentosN, (count : Int), cialdiniN, by positivity, hfa, ?_⟩
                    simp [apply_ite ComponentValidation.metrics,
                          apply_ite ComponentValidation.score, List.lookup]

theorem fracMul100_mem (a b : Nat) (hab : a ≤ b) :
    0 ≤ (a : Rat) / (b : Rat) * 100 ∧ (a : Rat) / (b : Rat) * 100 ≤ 100 := by
  rcases Nat.eq_zero_or_pos b with hb | hb
  · subst hb
    have : a = 0 := by omega
    subst this
    norm_num
  · have hb' : (0:Rat) < b := by exact_mod_cast hb
    constructor
    · positivity
    · have h1 : (a:Rat) / b ≤ 1 := by
        rw [div_le_one hb']
        exact_mod_cast hab
      nlinarith

theorem capAt100_mem (x : Rat) (hx : 0 ≤ x) : 0 ≤ min x 100 ∧ min x 100 ≤ 100 :=
  ⟨le_min hx (by norm_num), min_le_right _ _⟩

/-- C2's counterexample input: a caller-supplied negative `argumentos_totais`. -/
def c2ForensicInput : PyVal :=
  .dict [("densidade_persuasiva", .dict [("argumentos_totais", .int (-20))])]

/-- C2 counterexample: on a sub-record with `argumentos_totais = -20` the
forensic-metrics validator returns a score strictly below 0, so the five
validators' scores do not always lie in [0, 100]. -/
theorem c2_counterexample :
    (_validate_forensic_metrics c2ForensicInput (.dict [])).score < 0 := by
  simp [c2ForensicInput, _validate_forensic_metrics, pyGet, pyTruthy, pyAsNum, cialdiniCount,
        initValidation, catchValidation, pyStr, List.lookup, List.foldlM, pure, Except.pure]
  norm_num

/-- C2 (amended): the four non-forensic validators always return scores in
[0, 100]; the forensic-metrics validator's score never exceeds 100, and is
non-negative provided the `argumentos_totais` value it reads is non-negative
(the code caps each ratio sub-score above at 100 but never clamps below 0,
and `argumentos_totais` is the only caller-supplied number entering a ratio). -/
theorem c2_amended :
    (∀ d f : PyVal, 0 ≤ (_validate_mental_drivers d f).score ∧
      (_validate_mental_drivers d f).score ≤ 100) ∧
    (∀ d f : PyVal, 0 ≤ (_validate_visual_proofs d f).score ∧
      (_validate_visual_proofs d f).score ≤ 100) ∧
    (∀ d f : PyVal, 0 ≤ (_validate_anti_objection d f).score ∧
      (_validate_anti_objection d f).score ≤ 100) ∧
    (∀ d f : PyVal, 0 ≤ (_validate_avatar d f).score ∧
      (_validate_avatar d f).score ≤ 100) ∧
    (∀ d f : PyVal, (_validate_forensic_metrics d f).score ≤ 100 ∧
      (0 ≤ forensicArgumentos d → 0 ≤ (_validate_forensic_metrics d f).score)) := by
  refine ⟨?_, ?_, ?_, ?_, ?_⟩
  · intro d f
    rcases mental_score_cases d f with h | ⟨n, valid, hvn, h⟩
    · rw [h]; norm_num
    · rw [h]
      have hq1 : (0:Rat) ≤ min ((n : Rat) / 19 * 100) 100 := le_min (by positivity) (by norm_num)
      have hq2 : min ((n : Rat) / 19 * 100) 100 ≤ 100 := min_le_right _ _
      have hr : (0:Rat) ≤ (if 0 < n then (valid : Rat) / n else 0) ∧
          (if 0 < n then (valid : Rat) / (n:Rat) else 0) ≤ 1 := by
        split
        · rename_i hn
          have hn' : (0:Rat) < n := by exact_mod_cast hn
          constructor
          · positivity
          · rw [div_le_one hn']
            exact_mod_cast hvn
        · norm_num
      constructor <;> nlinarith [hr.1, hr.2]
  · intro d f
    rcases provas_score_cases d f with h | ⟨n, valid, complete, hvn, hcn, h⟩
    · rw [h]; norm_num
    · rw [h]
      have hquant : (0:Rat) ≤ (if 5 ≤ n then (100:Rat) else if 3 ≤ n then 80 else (n : Rat) * 20) ∧
          (if 5 ≤ n then (100:Rat) else if 3 ≤ n then 80 else (n : Rat) * 20) ≤ 100 := by
        split
        · norm_num
        · split
          · norm_num
          · rename_i h3
            have hn2 : n ≤ 2 := by omega
            have : (n : Rat) ≤ 2 := by exact_mod_cast hn2
            constructor
            · positivity
            · nlinarith
      have hv := fracMul100_mem valid n hvn
      have hc := fracMul100_mem complete n hcn
      constructor <;> nlinarith [hquant.1, hquant.2, hv.1, hv.2, hc.1, hc.2]
  · intro d f
    rcases anti_score_cases d f with h | ⟨nU, nS, nA, h⟩
    · rw [h]; norm_num
    · rw [h]
      have hcov : (0:Rat) ≤ (if nU ≤ 3 then (nU : Rat) / 3 * 100 else 100) ∧
          (if nU ≤ 3 then (nU : Rat) / 3 * 100 else 100) ≤ 100 := by
        split
        · rename_i h3
          exact fracMul100_mem nU 3 h3
        · norm_num
      have hs := capAt100_mem ((nS : Rat) / 3 * 100) (by positivity)
      have ha := capAt100_mem ((nA : Rat) / 8 * 100) (by positivity)
      constructor <;> nlinarith [hcov.1, hcov.2, hs.1, hs.2, ha.1, ha.2]
  · intro d f
    rcases avatar_score_cases d f with h | ⟨nd, ns, ndem, npsi, h⟩
    · rw [h]; norm_num
    · rw [h]
      have h1 := capAt100_mem ((nd : Rat) / 15 * 100) (by positivity)
      have h2 := capAt100_mem ((ns : Rat) / 15 * 100) (by positivity)
      have h3 := capAt100_mem ((ndem : Rat) / 7 * 100) (by positivity)
      have h4 := capAt100_mem ((npsi : Rat) / 8 * 100) (by positivity)
      constructor <;>
        nlinarith [h1.1, h1.2, h2.1, h2.2, h3.1, h3.2, h4.1, h4.2]
  · intro d f
    rcases forensic_score_cases d f with h | ⟨a, m, c, hm, hfa, h⟩
    · rw [h]
      exact ⟨by norm_num, fun _ => le_refl 0⟩
    · rw [h]
      have ha2 : min ((a : Rat) / 20 * 100) 100 ≤ 100 := min_le_right _ _
      have hc := capAt100_mem ((c : Rat) / 6 * 100) (by positivity)
      have hmm : (0:Rat) ≤ (m : Rat) := by exact_mod_cast hm
      have hm' := capAt100_mem ((m : Rat) / 4 * 100) (by positivity)
      constructor
      · nlinarith [hc.1, hc.2, hm'.1, hm'.2]
      · intro hpos
        rw [hfa] at hpos
        have ha0 : (0:Rat) ≤ (a : Rat) := by exact_mod_cast hpos
        have ha1 : (0:Rat) ≤ min ((a : Rat) / 20 * 100) 100 := le_min (by positivity) (by norm_num)
        nlinarith [hc.1, hc.2, hm'.1, hm'.2]

/-- The forensic input used by C2's witness. -/
def c2WitnessInput : PyVal :=
  .dict [("densidade_persuasiva", .dict [("argumentos_totais", .int 15)])]

/-- Witness for C2 (amended) at concrete inputs; the forensic hypothesis is
discharged at a record with non-negative `argumentos_totais`. -/
theorem c2_witness :
    (0 ≤ (_validate_mental_drivers (.dict []) (.dict [])).score ∧
      (_validate_mental_drivers (.dict []) (.dict [])).score ≤ 100) ∧
    (0 ≤ (_validate_visual_proofs (.dict []) (.dict [])).score ∧
      (_validate_visual_proofs (.dict []) (.dict [])).score ≤ 100) ∧
    (0 ≤ (_validate_anti_objection (.dict []) (.dict [])).score ∧
      (_validate_anti_objection (.dict []) (.dict [])).score ≤ 100) ∧
    (0 ≤ (_validate_avatar (.dict []) (.dict [])).score ∧
      (_validate_avatar (.dict []) (.dict [])).score ≤ 100) ∧
    ((_validate_forensic_metrics c2WitnessInput (.dict [])).score ≤ 100 ∧
      0 ≤ (_validate_forensic_metrics c2WitnessInput (.dict [])).score) :=
  ⟨c2_amended.1 (.dict []) (.dict []),
   c2_amended.2.1 (.dict []) (.dict []),
   c2_amended.2.2.1 (.dict []) (.dict []),
   c2_amended.2.2.2.1 (.dict []) (.dict []),
   (c2_amended.2.2.2.2 c2WitnessInput (.dict [])).1,
   (c2_amended.2.2.2.2 c2WitnessInput (.dict [])).2 (by decide)⟩

/-- The per-driver quality check of `_validate_mental_drivers`: a dict item
with truthy `nome` and a sized truthy `definicao_visceral` longer than 50. -/
def isValidDriverItem (item : PyVal) : Bool :=
  match item with
  | .dict kvs =>
    pyTruthy ((kvs.lookup "nome").getD (.str "")) &&
    pyTruthy ((kvs.lookup "definicao_visceral").getD (.str "")) &&
    (match pyLen ((kvs.lookup "definicao_visceral").getD (.str "")) with
     | .ok L => decide (50 < L)
     | .error _ => false)
  | _ => false

/-- The mental-drivers sub-record shape used by C8. -/
def mentalInput (xs : List PyVal) : PyVal := .dict [("drivers_customizados", .list xs)]

theorem driverStep_valid (acc : Nat × Nat) (item : PyVal)
    (h : isValidDriverItem item = true) :
    ∃ b : Nat, driverStep acc item = .ok (acc.1 + 1, acc.2 + b) := by
  cases item with
  | dict kvs =>
    simp only [isValidDriverItem, Bool.and_eq_true] at h
    obtain ⟨⟨hn, hd⟩, hmatch⟩ := h
    unfold driverStep
    dsimp only
    rw [hn, hd]
    simp only [Bool.and_self, if_true]
    cases hL : pyLen ((kvs.lookup "definicao_visceral").getD (.str "")) with
    | error e => rw [hL] at hmatch; cases hmatch
    | ok L =>
      rw [hL] at hmatch
      simp only [decide_eq_true_eq] at hmatch
      refine ⟨if (["em desenvolvimento", "customizado para", "driver mental"].any
          (fun g => strContains (strLower (pyStr (PyVal.dict kvs))) g)) then 1 else 0, ?_⟩
      simp [Except.map, hL, hmatch]
  | int n => simp [isValidDriverItem] at h
  | str s => simp [isValidDriverItem] at h
  | bool b => simp [isValidDriverItem] at h
  | none => simp [isValidDriverItem] at h
  | list l => simp [isValidDriverItem] at h

theorem foldlM_append_except {α β : Type} (g : β → α → Except String β) (xs ys : List α) :
    ∀ acc : β, (xs ++ ys).foldlM g acc = (xs.foldlM g acc) >>= fun b => ys.foldlM g b := by
  induction xs with
  | nil =>
    intro acc
    simp [List.foldlM, bind, Except.bind, pure, Except.pure]
  | cons x rest ih =>
    intro acc
    simp only [List.cons_append, List.foldlM]
    cases g acc x <;> simp [bind, Except.bind, ih]

theorem mental_on_list (xs : List PyVal) (f : PyVal) :
    (_validate_mental_drivers (mentalInput xs) f).score =
      (if xs.isEmpty then 0
       else match xs.foldlM driverStep (0, 0) with
        | .error _ => 0
        | .ok counts =>
          (min ((xs.length : Rat) / 19 * 100) 100 +
            (if 0 < xs.length then (counts.1 : Rat) / (xs.length : Rat) else 0) * 100) / 2) := by
  unfold _validate_mental_drivers mentalInput
  cases hxe : xs.isEmpty with
  | true => simp [pyGet, List.lookup, pyTruthy, hxe, initValidation]
  | false =>
    simp only [pyGet, List.lookup, pyTruthy, pyLen, pyIter, hxe]
    cases hf : xs.foldlM driverStep 0 with
    | error e =>
      simp [hf, catchValidation, initValidation, apply_ite ComponentValidation.score]
    | ok counts =>
      simp [hf, catchValidation, initValidation, apply_ite ComponentValidation.score]
      intro h
      subst h
      simp at hxe

/-- C8 (amended): appending one additional driver item that passes the
per-driver quality check (non-empty `nome`, `definicao_visceral` longer than
50 characters) never decreases the mental-drivers score. -/
theorem c8_amended (xs : List PyVal) (item : PyVal) (f : PyVal)
    (h : isValidDriverItem item = true) :
    (_validate_mental_drivers (mentalInput xs) f).score ≤
      (_validate_mental_drivers (mentalInput (xs ++ [item])) f).score := by
  rw [mental_on_list, mental_on_list]
  obtain ⟨b, hstep⟩ := driverStep_valid 0 item h
  cases xs with
  | nil =>
    simp only [List.nil_append, List.isEmpty_cons, List.isEmpty_nil, if_true]
    simp [List.foldlM, hstep, bind, Except.bind, pure, Except.pure]
    norm_num
  | cons y ys =>
    simp only [List.isEmpty_cons, List.cons_append, Bool.false_eq_true, if_false]
    rw [← List.cons_append, foldlM_append_except]
    cases hf : (y :: ys).foldlM driverStep ((0, 0) : Nat × Nat) with
    | error e => simp [hf, bind, Except.bind]
    | ok counts =>
      obtain ⟨b2, hstep2⟩ := driverStep_valid counts item h
      simp only [hf, bind, Except.bind, List.foldlM, hstep2, pure, Except.pure]
      have hcn : counts.1 ≤ ys.length + 1 := by
        have hle := driversFold_fst_le (y :: ys) (0, 0) counts hf
        simpa using hle
      simp only [List.length_cons, List.length_append, List.length_nil, Nat.zero_add]
      have h1 : 0 < ys.length + 1 := by omega
      have h2 : 0 < ys.length + 1 + 1 := by omega
      rw [if_pos h1, if_pos h2]
      push_cast
      have hC : (counts.1 : Rat) ≤ (ys.length : Rat) + 1 := by exact_mod_cast hcn
      have hCn : (0:Rat) ≤ (counts.1 : Rat) := by positivity
      have hmin : min (((ys.length : Rat) + 1) / 19 * 100) 100 ≤
          min (((ys.length : Rat) + 1 + 1) / 19 * 100) 100 := by
        apply min_le_min _ (le_refl _)
        have : (0:Rat) ≤ (ys.length : Rat) := by positivity
        nlinarith
      have hratio : (counts.1 : Rat) / ((ys.length : Rat) + 1) ≤
          ((counts.1 : Rat) + 1) / ((ys.length : Rat) + 1 + 1) := by
        rw [div_le_div_iff₀ (by positivity) (by positivity)]
        nlinarith
      have hr100 : (counts.1 : Rat) / ((ys.length : Rat) + 1) * 100 ≤
          ((counts.1 : Rat) + 1) / ((ys.length : Rat) + 1 + 1) * 100 := by nlinarith [hratio]
      exact (div_le_div_iff_of_pos_right (by norm_num)).mpr (add_le_add hmin hr100)

/-- A well-formed driver item (name plus a 60-character visceral definition). -/
def c8GoodDriver : PyVal :=
  .dict [("nome", .str "Urgência"),
         ("definicao_visceral", .str "aaaaaaaaaaaaaaaaaaaaaaaaaaaaaaaaaaaaaaaaaaaaaaaaaaaaaaaaaaaa")]

theorem driverStep_dictEmpty (acc : Nat × Nat) :
    driverStep acc (.dict []) = .ok (acc.1,
      acc.2 + if (["em desenvolvimento", "customizado para", "driver mental"].any
        (fun g => strContains (strLower (pyStr (PyVal.dict []))) g)) then 1 else 0) := by
  unfold driverStep
  simp [List.lookup, pyTruthy]

/-- C8 counterexample: appending one driver item that fails the quality check
(an empty dict) strictly decreases the mental-drivers score, so score
monotonicity under driver appends fails as claimed. -/
theorem c8_counterexample :
    (_validate_mental_drivers (mentalInput [c8GoodDriver, .dict []]) (.dict [])).score <
      (_validate_mental_drivers (mentalInput [c8GoodDriver]) (.dict [])).score := by
  rw [mental_on_list, mental_on_list]
  obtain ⟨b, hstep⟩ := driverStep_valid (0, 0) c8GoodDriver (by decide)
  simp only [List.foldlM, hstep, driverStep_dictEmpty, bind, Except.bind, pure, Except.pure,
    List.isEmpty_cons, Bool.false_eq_true, if_false, List.length_cons, List.length_nil]
  norm_num [min_def]

/-- Witness for C8 (amended): appending a well-formed driver to the empty
list does not decrease the score. -/
theorem c8_witness :
    isValidDriverItem c8GoodDriver = true ∧
    (_validate_mental_drivers (mentalInput []) (.dict [])).score ≤
      (_validate_mental_drivers (mentalInput ([] ++ [c8GoodDriver])) (.dict [])).score :=
  ⟨by decide, c8_amended [] c8GoodDriver (.dict []) (by decide)⟩

/-- The C3 heap layout: a record whose `drivers_mentais_customizados`
sub-dict holds the driver list `xs` at address 2. -/
def c3Heap (xs : List HVal) : Heap :=
  { objs := [(0, .dict [("drivers_mentais_customizados", .ref 1)]),
             (1, .dict [("drivers_customizados", .ref 2)]),
             (2, .list xs)], next := 3 }

/-- C3 counterexample: after `auto_fix_common_errors` on a record with an
empty driver list, the caller's original nested list object (address 2) is no
longer empty — the fixer mutated the original record's nested structure. -/
theorem c3_counterexample :
    Heap.lookup (afHeapOf (auto_fix_common_errors (c3Heap []) (.ref 0) "T")) 2 ≠
      some (.list []) := by decide

/-- C3 (amended): `auto_fix_common_errors` works on a shallow copy — the
original record's own top-level dict object is left unchanged (in particular
the synthesized `metadata` entry lands only on the copy), but nested
structures are shared, so padding a short `drivers_customizados` list mutates
the list seen through the caller's original record. -/
theorem c3_amended (xs : List HVal) (now : String) (h : xs.length < 3) :
    Heap.lookup (afHeapOf (auto_fix_common_errors (c3Heap xs) (.ref 0) now)) 0 =
      some (.dict [("drivers_mentais_customizados", .ref 1)]) ∧
    Heap.lookup (afHeapOf (auto_fix_common_errors (c3Heap xs) (.ref 0) now)) 2 ≠
      some (.list xs) := by
  match xs, h with
  | [], _ =>
    refine ⟨rfl, ?_⟩
    rw [show Heap.lookup (afHeapOf (auto_fix_common_errors (c3Heap []) (.ref 0) now)) 2 =
      some (.list [.ref 5, .ref 6, .ref 7]) from rfl]
    simp
  | [a], _ =>
    refine ⟨rfl, ?_⟩
    rw [show Heap.lookup (afHeapOf (auto_fix_common_errors (c3Heap [a]) (.ref 0) now)) 2 =
      some (.list [a, .ref 5, .ref 6]) from rfl]
    simp
  | [a, b], _ =>
    refine ⟨rfl, ?_⟩
    rw [show Heap.lookup (afHeapOf (auto_fix_common_errors (c3Heap [a, b]) (.ref 0) now)) 2 =
      some (.list [a, b, .ref 5]) from rfl]
    simp

/-- Witness for C3 (amended) at the empty driver list. -/
theorem c3_witness :
    ([] : List HVal).length < 3 ∧
    (Heap.lookup (afHeapOf (auto_fix_common_errors (c3Heap []) (.ref 0) "W")) 0 =
        some (.dict [("drivers_mentais_customizados", .ref 1)]) ∧
      Heap.lookup (afHeapOf (auto_fix_common_errors (c3Heap []) (.ref 0) "W")) 2 ≠
        some (.list [])) :=
  ⟨by decide, c3_amended [] "W" (by decide)⟩

/-- C4 (amended): on a dict record, `auto_fix_common_errors` never lets an
exception escape (the result is always `.ok`), and when a fix raised, the
returned record reports `auto_fix_successful = False`, carries the error
string, and hands back a reference to the caller's original record — which
clause (d) of the claim notwithstanding may already reflect fixes applied
before the exception. -/
theorem c4_amended (h : Heap) (a : Nat) (kvs : List (String × HVal)) (now : String)
    (hl : h.lookup a = some (.dict kvs)) :
    (auto_fix_common_errors h (.ref a) now).isOk = true ∧
    ∀ r, auto_fix_common_errors h (.ref a) now = .ok r →
      r.auto_fix_successful = false →
      r.error.isSome = true ∧ r.original_data = some (.ref a) := by
  unfold auto_fix_common_errors
  cases hc : afCopy (.ref a) h with
  | error e h1 =>
    exfalso
    unfold afCopy afAlloc at hc
    simp [bind, EStateM.bind, get, getThe, MonadStateOf.get, EStateM.get, hl,
          set, EStateM.set, pure, EStateM.pure, Heap.alloc] at hc
  | ok fd h1 =>
    cases hal : (afAlloc (.list []) : AF HVal) h1 with
    | error e h2 =>
      exfalso
      unfold afAlloc at hal
      simp [bind, EStateM.bind, get, getThe, MonadStateOf.get, EStateM.get,
            set, EStateM.set, pure, EStateM.pure, Heap.alloc] at hal
    | ok fixes h2 =>
      cases htry : autoFixTry fd fixes now h2 with
      | ok n h3 =>
        simp only [hal, htry]
        constructor
        · simp [Except.isOk, Except.toBool]
        · intro r hr hsucc
          injection hr with hr'
          rw [← hr'] at hsucc
          simp at hsucc
      | error e h3 =>
        simp only [hal, htry]
        constructor
        · simp [Except.isOk, Except.toBool]
        · intro r hr hsucc
          injection hr with hr'
          subst hr'
          exact ⟨rfl, rfl⟩

/-- The C4 heap: a short driver list (padded by Fix 1) plus a
`provas_visuais_arsenal` whose `arsenal_provis_completo` is an int, so Fix 2
raises `len(5)` after Fix 1 already mutated the shared driver list. -/
def c4Heap : Heap :=
  { objs := [(0, .dict [("drivers_mentais_customizados", .ref 1),
                        ("provas_visuais_arsenal", .ref 3)]),
             (1, .dict [("drivers_customizados", .ref 2)]),
             (2, .list []),
             (3, .dict [("arsenal_provis_completo", .int 5)])], next := 4 }

/-- C4 counterexample: the exception path returns `auto_fix_successful =
False` with the original record, but the record is *not* unmodified — the
nested driver list at address 2 was already padded before the exception. -/
theorem c4_counterexample :
    ((auto_fix_common_errors c4Heap (.ref 0) "T").toOption.map
      (fun r => (r.auto_fix_successful, r.original_data))) = some (false, some (.ref 0)) ∧
    Heap.lookup (afHeapOf (auto_fix_common_errors c4Heap (.ref 0) "T")) 2 ≠
      some (.list []) := by decide

/-- The failing run used by C4's witness. -/
def c4WitnessRes : AutoFixResult :=
  ((auto_fix_common_errors c4Heap (.ref 0) "W").toOption).getD
    { auto_fix_successful := false, fixes_applied := Option.none, fixed_data := Option.none,
      original_issues := Option.none, error := Option.none, original_data := Option.none,
      recommendation := "", heap := { objs := [], next := 0 } }

/-- Witness for C4 (amended) on the concrete failing heap. -/
theorem c4_witness :
    (auto_fix_common_errors c4Heap (.ref 0) "W").isOk = true ∧
    c4WitnessRes.error.isSome = true ∧
    c4WitnessRes.original_data = some (.ref 0) := by
  have hthm := c4_amended c4Heap 0
    [("drivers_mentais_customizados", .ref 1), ("provas_visuais_arsenal", .ref 3)] "W" rfl
  exact ⟨hthm.1, (hthm.2 c4WitnessRes rfl rfl).1, (hthm.2 c4WitnessRes rfl rfl).2⟩

/-- The C10 heap whose `gatilhos_cialdini` is *present but empty*. -/
def c10EmptyDictHeap : Heap :=
  { objs := [(0, .dict [("metricas_forenses_detalhadas", .ref 1)]),
             (1, .dict [("densidade_persuasiva", .ref 2)]),
             (2, .dict [("gatilhos_cialdini", .ref 3)]),
             (3, .dict [])], next := 4 }

/-- C10 counterexample: for a present-but-empty `gatilhos_cialdini` the fix
marker is appended *and* the default counters are written into the record's
own dict (address 3), which stays reachable from the returned `fixed_data`
(the copy at address 4) through the shared references — so `fixed_data` does
contain the Cialdini trigger values, contradicting the claim's "(or an empty
one)" branch. -/
theorem c10_counterexample :
    HVal.str "cialdini_triggers_basic" ∈
      afFixesOf (auto_fix_common_errors c10EmptyDictHeap (.ref 0) "T") ∧
    ((auto_fix_common_errors c10EmptyDictHeap (.ref 0) "T").toOption.map
      (fun r => r.fixed_data)) = some (some (.ref 4)) ∧
    Heap.lookup (afHeapOf (auto_fix_common_errors c10EmptyDictHeap (.ref 0) "T")) 4 =
      some (.dict [("metricas_forenses_detalhadas", .ref 1), ("metadata", .ref 8)]) ∧
    Heap.lookup (afHeapOf (auto_fix_common_errors c10EmptyDictHeap (.ref 0) "T")) 1 =
      some (.dict [("densidade_persuasiva", .ref 2)]) ∧
    Heap.lookup (afHeapOf (auto_fix_common_errors c10EmptyDictHeap (.ref 0) "T")) 2 =
      some (.dict [("gatilhos_cialdini", .ref 3)]) ∧
    Heap.lookup (afHeapOf (auto_fix_common_errors c10EmptyDictHeap (.ref 0) "T")) 3 =
      some (.dict [("reciprocidade", .int 2), ("autoridade", .int 3), ("prova_social", .int 4),
                   ("escassez", .int 1), ("compromisso", .int 2), ("afinidade", .int 3)]) := by
  decide

/-- The C10 heap whose `densidade_persuasiva` has *no* `gatilhos_cialdini`
key at all. -/
def c10NoKeyHeap : Heap :=
  { objs := [(0, .dict [("metricas_forenses_detalhadas", .ref 1)]),
             (1, .dict [("densidade_persuasiva", .ref 2)]),
             (2, .dict [])], next := 3 }

/-- C10 (amended): when `densidade_persuasiva` has no `gatilhos_cialdini`
key, `auto_fix_common_errors` still appends the `cialdini_triggers_basic`
marker (the all-zero check is vacuously true over the `.get` default), yet
the default counters land in a detached dict: the record's
`densidade_persuasiva` (address 2) stays empty, so the returned `fixed_data`
carries no Cialdini trigger values.  When `gatilhos_cialdini` is present but
empty, the marker is appended and the defaults are written into the record's
own dict (address 3 of the present-but-empty layout). -/
theorem c10_amended :
    (HVal.str "cialdini_triggers_basic" ∈
        afFixesOf (auto_fix_common_errors c10NoKeyHeap (.ref 0) "T") ∧
      Heap.lookup (afHeapOf (auto_fix_common_errors c10NoKeyHeap (.ref 0) "T")) 2 =
        some (.dict [])) ∧
    (HVal.str "cialdini_triggers_basic" ∈
        afFixesOf (auto_fix_common_errors c10EmptyDictHeap (.ref 0) "T") ∧
      Heap.lookup (afHeapOf (auto_fix_common_errors c10EmptyDictHeap (.ref 0) "T")) 3 =
        some (.dict [("reciprocidade", .int 2), ("autoridade", .int 3), ("prova_social", .int 4),
                     ("escassez", .int 1), ("compromisso", .int 2), ("afinidade", .int 3)])) := by
  decide
